import Mathlib

/-!
Shallow embedding of the browser-fingerprint emulation engine of the
primp repository: the HTTP/2 SETTINGS frame (id order builder, encoder,
decoder), the PRIORITY frame builders and decoders, the per-browser TLS
emulation tables, and the profile-identifier resolution, together with
theorems settling the specification's claims about them.

Machine integers of the source (u8/u16/u32) are modelled as `Nat`; the
source's types guarantee the bounds that appear here as hypotheses.
-/

namespace Primp

/-! ### Frame-level common types

The frame error type, the frame head and the stream-id parser live in the
h2 crate's frame module; only `settings.rs` and `priority.rs` of that
module are part of this repository snapshot.  The error constructors are
exactly the ones named by the decoders; the head is the decoded 9-byte
frame header.
-/

/-- Typed decode errors returned by the frame decoders
(`InvalidStreamId`, `InvalidPayloadLength`, `InvalidPayloadAckSettings`,
`InvalidSettingValue`, `InvalidDependencyId`). -/
inductive Error where
  | InvalidStreamId
  | InvalidPayloadLength
  | InvalidPayloadAckSettings
  | InvalidSettingValue
  | InvalidDependencyId
deriving DecidableEq

/-- HTTP/2 frame kinds. -/
inductive Kind where
  | Data
  | Headers
  | Priority
  | Reset
  | Settings
  | PushPromise
  | Ping
  | GoAway
  | WindowUpdate
  | Continuation
deriving DecidableEq

/-- Modelled from the spec: a decoded frame head carries the frame kind, the
flags byte and the frame's stream id (the h2 frame-head source file is not
under src/; decoders receive it as `Head`). -/
structure Head where
  kind : Kind
  flag : Nat
  stream_id : Nat
deriving DecidableEq

/-- Big-endian 16-bit read: `(u16::from(raw[0]) << 8) | u16::from(raw[1])`. -/
def unpackU16 (b0 b1 : Nat) : Nat := b0 * 2 ^ 8 + b1

/-- Big-endian 32-bit read, the `unpack_octets_4!` macro. -/
def unpackU32 (b0 b1 b2 b3 : Nat) : Nat :=
  b0 * 2 ^ 24 + b1 * 2 ^ 16 + b2 * 2 ^ 8 + b3

/-- Big-endian 16-bit write (`put_u16`). -/
def putU16 (v : Nat) : List Nat := [v / 2 ^ 8 % 2 ^ 8, v % 2 ^ 8]

/-- Big-endian 32-bit write (`put_u32`). -/
def putU32 (v : Nat) : List Nat :=
  [v / 2 ^ 24 % 2 ^ 8, v / 2 ^ 16 % 2 ^ 8, v / 2 ^ 8 % 2 ^ 8, v % 2 ^ 8]

/-! ### SettingId and the settings order builder (settings.rs, macros.rs) -/

/-- The valid settings of a SETTINGS frame (`SettingId`, generated by
`define_enum_with_values!` with wire values 1,2,3,4,5,6,8,9). -/
inductive SettingId where
  | HeaderTableSize
  | EnablePush
  | MaxConcurrentStreams
  | InitialWindowSize
  | MaxFrameSize
  | MaxHeaderListSize
  | EnableConnectProtocol
  | NoRfc7540Priorities
deriving DecidableEq, Fintype

/-- The declared wire value of each `SettingId`. -/
def SettingId.value : SettingId → Nat
  | .HeaderTableSize => 0x0001
  | .EnablePush => 0x0002
  | .MaxConcurrentStreams => 0x0003
  | .InitialWindowSize => 0x0004
  | .MaxFrameSize => 0x0005
  | .MaxHeaderListSize => 0x0006
  | .EnableConnectProtocol => 0x0008
  | .NoRfc7540Priorities => 0x0009

/-- `MAX_ID` of the `@U16` arm of `define_enum_with_values!`. -/
def SettingId.MAX_ID : Nat := 15

/-- `DEFAULT_IDS`: every known id, in canonical declaration order. -/
def SettingId.DEFAULT_IDS : List SettingId :=
  [.HeaderTableSize, .EnablePush, .MaxConcurrentStreams, .InitialWindowSize,
   .MaxFrameSize, .MaxHeaderListSize, .EnableConnectProtocol, .NoRfc7540Priorities]

/-- `mask_id` from macros.rs: `0` outside the fast-dedup range `1..=MAX_ID`,
otherwise the unique power of two `1 << (value - 1)`. -/
def SettingId.mask_id (id : SettingId) : Nat :=
  if id.value = 0 ∨ id.value > SettingId.MAX_ID then 0
  else 2 ^ (id.value - 1)

/-- An ordered list of `SettingId` used when encoding a SETTINGS frame. -/
structure SettingsOrder where
  ids : List SettingId
deriving DecidableEq

/-- Builder state: the ids pushed so far plus the u16 dedup bitmask. -/
structure SettingsOrderBuilder where
  ids : List SettingId
  mask : Nat
deriving DecidableEq

/-- `SettingsOrder::builder()`. -/
def SettingsOrder.builder : SettingsOrderBuilder := ⟨[], 0⟩

/-- `SettingsOrder::default()`: all known ids in canonical order. -/
def SettingsOrder.default : SettingsOrder := ⟨SettingId.DEFAULT_IDS⟩

/-- `SettingsOrderBuilder::push`: append the id unless its mask bit is
already set (duplicates are ignored). -/
def SettingsOrderBuilder.push (b : SettingsOrderBuilder) (id : SettingId) :
    SettingsOrderBuilder :=
  let m := id.mask_id
  if m ≠ 0 then
    if b.mask &&& m = 0 then
      { ids := b.ids ++ [id], mask := b.mask ||| m }
    else b
  else b

/-- `SettingsOrderBuilder::extend`: push each id in order. -/
def SettingsOrderBuilder.extend (b : SettingsOrderBuilder)
    (iter : List SettingId) : SettingsOrderBuilder :=
  iter.foldl SettingsOrderBuilder.push b

/-- `SettingsOrderBuilder::build`: if not all known ids were pushed, extend
with `DEFAULT_IDS` before freezing. -/
def SettingsOrderBuilder.build (b : SettingsOrderBuilder) : SettingsOrder :=
  if b.ids.length ≠ SettingId.DEFAULT_IDS.length then
    ⟨(b.extend SettingId.DEFAULT_IDS).ids⟩
  else ⟨b.ids⟩

/-- `SettingsOrderBuilder::build_without_extend`: freeze exactly what was
pushed. -/
def SettingsOrderBuilder.build_without_extend (b : SettingsOrderBuilder) :
    SettingsOrder :=
  ⟨b.ids⟩

/-- Specification-side description of the pushed order: fold that appends an
id only when it is not yet present (first occurrence wins). -/
def appendNew (acc : List SettingId) (id : SettingId) : List SettingId :=
  if id ∈ acc then acc else acc ++ [id]

/-- The distinct pushed ids in first-push order, starting from `seen`. -/
def pushedFrom (seen : List SettingId) (l : List SettingId) : List SettingId :=
  l.foldl appendNew seen

/-- The distinct pushed ids of `l`, in first-push order. -/
def pushedOrder (l : List SettingId) : List SettingId := pushedFrom [] l

/-! ### Settings frame (settings.rs) -/

/-- The `ACK` flag bit. -/
def ACK : Nat := 0x1

/-- `ALL` legal flag bits (just `ACK`). -/
def ALL : Nat := ACK

/-- The SETTINGS frame flags byte wrapper. -/
structure SettingsFlags where
  bits : Nat
deriving DecidableEq

/-- `SettingsFlags::empty`. -/
def SettingsFlags.empty : SettingsFlags := ⟨0⟩

/-- `SettingsFlags::load`: mask to the legal bits. -/
def SettingsFlags.load (bits : Nat) : SettingsFlags := ⟨bits &&& ALL⟩

/-- `SettingsFlags::ack`. -/
def SettingsFlags.ack : SettingsFlags := ⟨ACK⟩

/-- `SettingsFlags::is_ack`. -/
def SettingsFlags.is_ack (f : SettingsFlags) : Bool := f.bits &&& ACK == ACK

/-- `DEFAULT_SETTINGS_HEADER_TABLE_SIZE`. -/
def DEFAULT_SETTINGS_HEADER_TABLE_SIZE : Nat := 4096

/-- `DEFAULT_INITIAL_WINDOW_SIZE`. -/
def DEFAULT_INITIAL_WINDOW_SIZE : Nat := 65535

/-- `DEFAULT_MAX_FRAME_SIZE`. -/
def DEFAULT_MAX_FRAME_SIZE : Nat := 16384

/-- `MAX_INITIAL_WINDOW_SIZE = (1 << 31) - 1`. -/
def MAX_INITIAL_WINDOW_SIZE : Nat := 2 ^ 31 - 1

/-- `MAX_MAX_FRAME_SIZE = (1 << 24) - 1`. -/
def MAX_MAX_FRAME_SIZE : Nat := 2 ^ 24 - 1

/-- A single decoded setting (`Setting`), one constructor per known id. -/
inductive Setting where
  | HeaderTableSize (v : Nat)
  | EnablePush (v : Nat)
  | MaxConcurrentStreams (v : Nat)
  | InitialWindowSize (v : Nat)
  | MaxFrameSize (v : Nat)
  | MaxHeaderListSize (v : Nat)
  | EnableConnectProtocol (v : Nat)
  | NoRfc7540Priorities (v : Nat)
deriving DecidableEq

/-- `Setting::id`. -/
def Setting.id : Setting → Nat
  | .HeaderTableSize _ => 1
  | .EnablePush _ => 2
  | .MaxConcurrentStreams _ => 3
  | .InitialWindowSize _ => 4
  | .MaxFrameSize _ => 5
  | .MaxHeaderListSize _ => 6
  | .EnableConnectProtocol _ => 8
  | .NoRfc7540Priorities _ => 9

/-- `Setting::from_id`: the variant for a wire id, `none` for unknown ids. -/
def Setting.from_id (id : Nat) (val : Nat) : Option Setting :=
  match id with
  | 1 => some (.HeaderTableSize val)
  | 2 => some (.EnablePush val)
  | 3 => some (.MaxConcurrentStreams val)
  | 4 => some (.InitialWindowSize val)
  | 5 => some (.MaxFrameSize val)
  | 6 => some (.MaxHeaderListSize val)
  | 8 => some (.EnableConnectProtocol val)
  | 9 => some (.NoRfc7540Priorities val)
  | _ => none

/-- The `(kind, val)` pair of `Setting::encode`. -/
def Setting.encodeKindVal : Setting → Nat × Nat
  | .HeaderTableSize v => (1, v)
  | .EnablePush v => (2, v)
  | .MaxConcurrentStreams v => (3, v)
  | .InitialWindowSize v => (4, v)
  | .MaxFrameSize v => (5, v)
  | .MaxHeaderListSize v => (6, v)
  | .EnableConnectProtocol v => (8, v)
  | .NoRfc7540Priorities v => (9, v)

/-- `Setting::encode`: 6 bytes, `put_u16(kind)` then `put_u32(val)`. -/
def Setting.encode (s : Setting) : List Nat :=
  putU16 s.encodeKindVal.1 ++ putU32 s.encodeKindVal.2

/-- The SETTINGS frame value (`Settings`): flags, one optional u32 per known
id, and the configured encoding order. -/
structure Settings where
  flags : SettingsFlags
  header_table_size : Option Nat
  enable_push : Option Nat
  max_concurrent_streams : Option Nat
  initial_window_size : Option Nat
  max_frame_size : Option Nat
  max_header_list_size : Option Nat
  enable_connect_protocol : Option Nat
  no_rfc7540_priorities : Option Nat
  settings_order : SettingsOrder
deriving DecidableEq

/-- `Settings::default()`: empty flags, no values, default order. -/
def Settings.default : Settings :=
  ⟨SettingsFlags.empty, none, none, none, none, none, none, none, none,
   SettingsOrder.default⟩

/-- `Settings::ack()`. -/
def Settings.ack : Settings :=
  { Settings.default with flags := SettingsFlags.ack }

/-- `Settings::is_ack`. -/
def Settings.is_ack (s : Settings) : Bool := s.flags.is_ack

/-- The id→value mapping of a `Settings` value (its field per `SettingId`). -/
def Settings.settingsMap (s : Settings) : SettingId → Option Nat
  | .HeaderTableSize => s.header_table_size
  | .EnablePush => s.enable_push
  | .MaxConcurrentStreams => s.max_concurrent_streams
  | .InitialWindowSize => s.initial_window_size
  | .MaxFrameSize => s.max_frame_size
  | .MaxHeaderListSize => s.max_header_list_size
  | .EnableConnectProtocol => s.enable_connect_protocol
  | .NoRfc7540Priorities => s.no_rfc7540_priorities

/-- `Settings::for_each`, collected into a list: walk the configured order
and emit a `Setting` for each id whose field is present. -/
def Settings.for_each (s : Settings) : List Setting :=
  s.settings_order.ids.flatMap fun id =>
    match id with
    | .HeaderTableSize =>
      match s.header_table_size with
      | some v => [.HeaderTableSize v]
      | none => []
    | .EnablePush =>
      match s.enable_push with
      | some v => [.EnablePush v]
      | none => []
    | .MaxConcurrentStreams =>
      match s.max_concurrent_streams with
      | some v => [.MaxConcurrentStreams v]
      | none => []
    | .InitialWindowSize =>
      match s.initial_window_size with
      | some v => [.InitialWindowSize v]
      | none => []
    | .MaxFrameSize =>
      match s.max_frame_size with
      | some v => [.MaxFrameSize v]
      | none => []
    | .MaxHeaderListSize =>
      match s.max_header_list_size with
      | some v => [.MaxHeaderListSize v]
      | none => []
    | .EnableConnectProtocol =>
      match s.enable_connect_protocol with
      | some v => [.EnableConnectProtocol v]
      | none => []
    | .NoRfc7540Priorities =>
      match s.no_rfc7540_priorities with
      | some v => [.NoRfc7540Priorities v]
      | none => []

/-- The head written by `Settings::encode`:
`Head::new(Kind::Settings, self.flags.into(), StreamId::zero())`. -/
def Settings.encodeFrameHead (s : Settings) : Head :=
  ⟨Kind.Settings, s.flags.bits, 0⟩

/-- The payload written by `Settings::encode`: each emitted setting's
6 bytes, in the configured order. -/
def Settings.encodePayload (s : Settings) : List Nat :=
  s.for_each.flatMap Setting.encode

/-- The decode loop of `Settings::load`: consume one 6-byte field at a
time, validating values exactly as the source does and ignoring unknown
ids.  The final catch-all for a non-empty leftover shorter than 6 bytes is
unreachable from `Settings.load`, which checks `length % 6 = 0` first. -/
def Settings.loadLoop : Settings → List Nat → Except Error Settings
  | s, b0 :: b1 :: b2 :: b3 :: b4 :: b5 :: rest =>
    match Setting.from_id (unpackU16 b0 b1) (unpackU32 b2 b3 b4 b5) with
    | some (.HeaderTableSize v) =>
      Settings.loadLoop { s with header_table_size := some v } rest
    | some (.EnablePush v) =>
      if v = 0 ∨ v = 1 then
        Settings.loadLoop { s with enable_push := some v } rest
      else .error .InvalidSettingValue
    | some (.MaxConcurrentStreams v) =>
      Settings.loadLoop { s with max_concurrent_streams := some v } rest
    | some (.InitialWindowSize v) =>
      if v > MAX_INITIAL_WINDOW_SIZE then .error .InvalidSettingValue
      else Settings.loadLoop { s with initial_window_size := some v } rest
    | some (.MaxFrameSize v) =>
      if DEFAULT_MAX_FRAME_SIZE ≤ v ∧ v ≤ MAX_MAX_FRAME_SIZE then
        Settings.loadLoop { s with max_frame_size := some v } rest
      else .error .InvalidSettingValue
    | some (.MaxHeaderListSize v) =>
      Settings.loadLoop { s with max_header_list_size := some v } rest
    | some (.EnableConnectProtocol v) =>
      if v = 0 ∨ v = 1 then
        Settings.loadLoop { s with enable_connect_protocol := some v } rest
      else .error .InvalidSettingValue
    | some (.NoRfc7540Priorities v) =>
      Settings.loadLoop { s with no_rfc7540_priorities := some v } rest
    | none => Settings.loadLoop s rest
  | s, _ => .ok s

/-- `Settings::load`: stream id must be zero; an ACK frame must have an
empty payload; otherwise the payload length must be a multiple of 6 and
each 6-byte field is applied in order. -/
def Settings.load (head : Head) (payload : List Nat) : Except Error Settings :=
  if head.stream_id ≠ 0 then .error .InvalidStreamId
  else
    let flag := SettingsFlags.load head.flag
    if flag.is_ack then
      if payload ≠ [] then .error .InvalidPayloadLength
      else .ok Settings.ack
    else if payload.length % 6 ≠ 0 then .error .InvalidPayloadAckSettings
    else Settings.loadLoop Settings.default payload

/-- The parsed `(id, value)` fields of a SETTINGS payload, 6 bytes per
field (the reading done by `Setting::load` on each chunk). -/
def settingsFields : List Nat → List (Nat × Nat)
  | b0 :: b1 :: b2 :: b3 :: b4 :: b5 :: rest =>
    (unpackU16 b0 b1, unpackU32 b2 b3 b4 b5) :: settingsFields rest
  | _ => []

/-- A parsed field that `Settings::load` rejects with
`InvalidSettingValue`. -/
def badField (p : Nat × Nat) : Bool :=
  ((p.1 == 2 || p.1 == 8) && !(p.2 == 0 || p.2 == 1)) ||
  (p.1 == 4 && decide (p.2 > MAX_INITIAL_WINDOW_SIZE)) ||
  (p.1 == 5 && !(decide (DEFAULT_MAX_FRAME_SIZE ≤ p.2) &&
                 decide (p.2 ≤ MAX_MAX_FRAME_SIZE)))

/-! ### PRIORITY frames (priority.rs) -/

/-- A stream dependency: target id, weight (already normalized to a u8 in
`[0,255]`) and the exclusive bit. -/
structure StreamDependency where
  dependency_id : Nat
  weight : Nat
  is_exclusive : Bool
deriving DecidableEq

/-- A PRIORITY frame: the prioritized stream and its dependency. -/
structure Priority where
  stream_id : Nat
  dependency : StreamDependency
deriving DecidableEq

/-- An ordered collection of PRIORITY frames. -/
structure Priorities where
  priorities : List Priority
deriving DecidableEq

/-- Builder state: the frames kept so far plus the 32-bit insertion
bitmap for stream ids below the threshold. -/
structure PrioritiesBuilder where
  priorities : List Priority
  inserted_bitmap : Nat
deriving DecidableEq

/-- `Priorities::builder()`. -/
def Priorities.builder : PrioritiesBuilder := ⟨[], 0⟩

/-- The bitmap threshold `MAX_BITMAP_STREAMS`. -/
def MAX_BITMAP_STREAMS : Nat := 32

/-- `PrioritiesBuilder::push`: drop stream id 0; dedup via the bitmap for
ids below 32 (`1u32 << id`), via a linear scan at or above 32; otherwise
append. -/
def PrioritiesBuilder.push (b : PrioritiesBuilder) (priority : Priority) :
    PrioritiesBuilder :=
  if priority.stream_id = 0 then b
  else
    let id := priority.stream_id
    if id < MAX_BITMAP_STREAMS then
      let mask := 2 ^ id
      if b.inserted_bitmap &&& mask ≠ 0 then b
      else
        { priorities := b.priorities ++ [priority],
          inserted_bitmap := b.inserted_bitmap ||| mask }
    else
      if b.priorities.any fun p => p.stream_id == priority.stream_id then b
      else { b with priorities := b.priorities ++ [priority] }

/-- `PrioritiesBuilder::extend`: push each in order. -/
def PrioritiesBuilder.extend (b : PrioritiesBuilder)
    (priorities : List Priority) : PrioritiesBuilder :=
  priorities.foldl PrioritiesBuilder.push b

/-- `PrioritiesBuilder::build`: freeze the ordered collection. -/
def PrioritiesBuilder.build (b : PrioritiesBuilder) : Priorities :=
  ⟨b.priorities⟩

/-- Modelled from the spec: `StreamId::parse` of the h2 frame module (not
under src/) reads a big-endian u32 from 4 bytes and splits it into the
31-bit stream id and the 1-bit exclusive flag. -/
def StreamId.parse (b0 b1 b2 b3 : Nat) : Nat × Bool :=
  let unpacked := unpackU32 b0 b1 b2 b3
  (unpacked &&& (2 ^ 31 - 1), unpacked &&& 2 ^ 31 == 2 ^ 31)

/-- `StreamDependency::new`. -/
def StreamDependency.new (dependency_id : Nat) (weight : Nat)
    (is_exclusive : Bool) : StreamDependency :=
  ⟨dependency_id, weight, is_exclusive⟩

/-- `StreamDependency::load`: a payload of exactly 5 bytes parses to
{31-bit id + exclusive flag, weight}; any other length is
`InvalidPayloadLength`. -/
def StreamDependency.load (src : List Nat) : Except Error StreamDependency :=
  match src with
  | [b0, b1, b2, b3, b4] =>
    let parsed := StreamId.parse b0 b1 b2 b3
    .ok (StreamDependency.new parsed.1 b4 parsed.2)
  | _ => .error .InvalidPayloadLength

/-- `StreamDependency::chrome`: the fixed anchor triple
{dependency id 0, weight 255, exclusive}. -/
def StreamDependency.chrome : StreamDependency := ⟨0, 255, true⟩

/-- `Priority::load`: the wire dependency bytes are intentionally ignored
(the validating code is commented out in the source); the fixed Chrome
anchor triple is substituted and no error is ever returned. -/
def Priority.load (head : Head) (_payload : List Nat) :
    Except Error Priority :=
  .ok ⟨head.stream_id, StreamDependency.chrome⟩

/-! ### Pseudo-header order

The pseudo-header order builder lives in an h2 frame source file that is
not under src/; only its callers are.
-/

/-- The four HTTP/2 pseudo-headers. -/
inductive PseudoId where
  | Method
  | Scheme
  | Authority
  | Path
deriving DecidableEq

/-- Modelled from the spec: the pseudo-header order builder keeps an
ordered, de-duplicated sequence over {Method, Scheme, Authority, Path}. -/
structure PseudoOrderBuilder where
  ids : List PseudoId
deriving DecidableEq

/-- The frozen pseudo-header order. -/
structure PseudoOrder where
  ids : List PseudoId
deriving DecidableEq

/-- Modelled from the spec: start an empty pseudo-header order builder. -/
def PseudoOrder.builder : PseudoOrderBuilder := ⟨[]⟩

/-- Modelled from the spec: append a pseudo-header unless already present. -/
def PseudoOrderBuilder.push (b : PseudoOrderBuilder) (id : PseudoId) :
    PseudoOrderBuilder :=
  if id ∈ b.ids then b else ⟨b.ids ++ [id]⟩

/-- Modelled from the spec: freeze the pseudo-header order. -/
def PseudoOrderBuilder.build (b : PseudoOrderBuilder) : PseudoOrder :=
  ⟨b.ids⟩

/-! ### Edge HTTP/2 profile (imp/edge/mod.rs, imp/mod.rs) -/

/-- The HTTP/2 configuration data of a browser profile (`Http2Data`). -/
structure Http2Data where
  initial_stream_window_size : Option Nat
  initial_connection_window_size : Option Nat
  max_concurrent_streams : Option Nat
  max_frame_size : Option Nat
  max_header_list_size : Option Nat
  header_table_size : Option Nat
  enable_push : Option Bool
  enable_connect_protocol : Option Bool
  no_rfc7540_priorities : Option Bool
  settings_order : Option SettingsOrder
  headers_pseudo_order : Option PseudoOrder
  headers_stream_dependency : Option StreamDependency
  priorities : Option Priorities

/-- `build_http2_settings` of imp/edge/mod.rs (http2 feature); the Edge
version argument is ignored by the source, so it is omitted here. -/
def build_http2_settings_edge : Http2Data :=
  { initial_stream_window_size := some 6291456
    initial_connection_window_size := some 15728640
    max_concurrent_streams := none
    max_frame_size := none
    max_header_list_size := some 262144
    header_table_size := some 65536
    enable_push := some false
    enable_connect_protocol := none
    no_rfc7540_priorities := none
    settings_order := some
      ((((SettingsOrder.builder.push .HeaderTableSize).push
          .EnablePush).push .InitialWindowSize).push
          .MaxHeaderListSize).build_without_extend
    headers_pseudo_order := some
      ((((PseudoOrder.builder.push .Method).push .Authority).push
          .Scheme).push .Path).build
    headers_stream_dependency := some StreamDependency.chrome
    priorities := none }

/-- Modelled from the spec: the transport-configuration layer (the
`http2_*` client-builder methods, not under src/) copies each `Http2Data`
field into the corresponding field of the SETTINGS frame sent on the wire:
stream window → `InitialWindowSize`, header table → `HeaderTableSize`,
push flag → `EnablePush` as 0/1, header list size → `MaxHeaderListSize`
(defaulted to 262144 as in `configure_impersonate`), and installs the
configured settings order. -/
def Http2Data.toSettings (d : Http2Data) : Settings :=
  { Settings.default with
    header_table_size := d.header_table_size
    enable_push := d.enable_push.map fun b => if b then 1 else 0
    max_concurrent_streams := d.max_concurrent_streams
    initial_window_size := d.initial_stream_window_size
    max_frame_size := d.max_frame_size
    max_header_list_size := some (d.max_header_list_size.getD 262144)
    settings_order := d.settings_order.getD SettingsOrder.default }

/-! ### TLS emulation tables (primp-rustls crypto/emulation/mod.rs) -/

/-- The cipher suites named by the emulation tables. -/
inductive CipherSuite where
  | TLS_RESERVED_GREASE
  | TLS13_AES_128_GCM_SHA256
  | TLS13_AES_256_GCM_SHA384
  | TLS13_CHACHA20_POLY1305_SHA256
  | TLS_ECDHE_ECDSA_WITH_AES_128_GCM_SHA256
  | TLS_ECDHE_RSA_WITH_AES_128_GCM_SHA256
  | TLS_ECDHE_ECDSA_WITH_AES_256_GCM_SHA384
  | TLS_ECDHE_RSA_WITH_AES_256_GCM_SHA384
  | TLS_ECDHE_ECDSA_WITH_CHACHA20_POLY1305_SHA256
  | TLS_ECDHE_RSA_WITH_CHACHA20_POLY1305_SHA256
  | TLS_ECDHE_RSA_WITH_AES_128_CBC_SHA
  | TLS_ECDHE_RSA_WITH_AES_256_CBC_SHA
  | TLS_RSA_WITH_AES_128_GCM_SHA256
  | TLS_RSA_WITH_AES_256_GCM_SHA384
  | TLS_RSA_WITH_AES_128_CBC_SHA
  | TLS_RSA_WITH_AES_256_CBC_SHA
  | TLS_ECDHE_ECDSA_WITH_AES_256_CBC_SHA
  | TLS_ECDHE_ECDSA_WITH_AES_128_CBC_SHA
  | TLS_ECDHE_ECDSA_WITH_3DES_EDE_CBC_SHA
  | TLS_ECDHE_RSA_WITH_3DES_EDE_CBC_SHA
  | TLS_RSA_WITH_3DES_EDE_CBC_SHA
deriving DecidableEq

/-- The signature schemes named by the emulation tables. -/
inductive SignatureScheme where
  | ECDSA_NISTP256_SHA256
  | RSA_PSS_SHA256
  | RSA_PKCS1_SHA256
  | ECDSA_NISTP384_SHA384
  | RSA_PSS_SHA384
  | RSA_PKCS1_SHA384
  | RSA_PSS_SHA512
  | RSA_PKCS1_SHA512
  | ECDSA_NISTP521_SHA512
  | ECDSA_SHA1_Legacy
  | RSA_PKCS1_SHA1
deriving DecidableEq

/-- The named groups used by the emulation tables. -/
inductive NamedGroup where
  | GREASE
  | X25519MLKEM768
  | X25519
  | secp256r1
  | secp384r1
deriving DecidableEq

namespace cipher_suites

/-- `cipher_suites::CHROME`: GREASE, then 3 TLS 1.3 suites, then the 13
TLS 1.2 suites, in Chrome's wire order. -/
def CHROME : List CipherSuite :=
  [.TLS_RESERVED_GREASE,
   .TLS13_AES_128_GCM_SHA256,
   .TLS13_AES_256_GCM_SHA384,
   .TLS13_CHACHA20_POLY1305_SHA256,
   .TLS_ECDHE_ECDSA_WITH_AES_128_GCM_SHA256,
   .TLS_ECDHE_RSA_WITH_AES_128_GCM_SHA256,
   .TLS_ECDHE_ECDSA_WITH_AES_256_GCM_SHA384,
   .TLS_ECDHE_RSA_WITH_AES_256_GCM_SHA384,
   .TLS_ECDHE_ECDSA_WITH_CHACHA20_POLY1305_SHA256,
   .TLS_ECDHE_RSA_WITH_CHACHA20_POLY1305_SHA256,
   .TLS_ECDHE_RSA_WITH_AES_128_CBC_SHA,
   .TLS_ECDHE_RSA_WITH_AES_256_CBC_SHA,
   .TLS_RSA_WITH_AES_128_GCM_SHA256,
   .TLS_RSA_WITH_AES_256_GCM_SHA384,
   .TLS_RSA_WITH_AES_128_CBC_SHA,
   .TLS_RSA_WITH_AES_256_CBC_SHA]

/-- `cipher_suites::EDGE`, an alias of `CHROME` in the source. -/
def EDGE : List CipherSuite := CHROME

/-- `cipher_suites::OPERA`, an alias of `CHROME` in the source. -/
def OPERA : List CipherSuite := CHROME

end cipher_suites

namespace signature_algorithms

/-- `signature_algorithms::CHROME`: Chrome's 8 schemes in order. -/
def CHROME : List SignatureScheme :=
  [.ECDSA_NISTP256_SHA256,
   .RSA_PSS_SHA256,
   .RSA_PKCS1_SHA256,
   .ECDSA_NISTP384_SHA384,
   .RSA_PSS_SHA384,
   .RSA_PKCS1_SHA384,
   .RSA_PSS_SHA512,
   .RSA_PKCS1_SHA512]

/-- `signature_algorithms::EDGE`, an alias of `CHROME` in the source. -/
def EDGE : List SignatureScheme := CHROME

/-- `signature_algorithms::OPERA`, an alias of `CHROME` in the source. -/
def OPERA : List SignatureScheme := CHROME

end signature_algorithms

namespace named_groups

/-- `named_groups::CHROME`: GREASE, the post-quantum group, then the
classical groups. -/
def CHROME : List NamedGroup :=
  [.GREASE, .X25519MLKEM768, .X25519, .secp256r1, .secp384r1]

/-- `named_groups::EDGE`, an alias of `CHROME` in the source. -/
def EDGE : List NamedGroup := CHROME

/-- `named_groups::OPERA`: its own literal list in the source. -/
def OPERA : List NamedGroup :=
  [.GREASE, .X25519MLKEM768, .X25519, .secp256r1, .secp384r1]

end named_groups

namespace extension_order

/-- `extension_order::CHROME = 0x8daa`. -/
def CHROME : Nat := 0x8daa

/-- `extension_order::EDGE`, an alias of `CHROME` in the source. -/
def EDGE : Nat := CHROME

/-- `extension_order::OPERA = 0x0271`. -/
def OPERA : Nat := 0x0271

end extension_order

namespace extension_permutation

/-- `extension_permutation::CHROME = false`. -/
def CHROME : Bool := false

/-- `extension_permutation::EDGE = false`. -/
def EDGE : Bool := false

/-- `extension_permutation::OPERA = true`. -/
def OPERA : Bool := true

end extension_permutation

/-! ### Profile-identifier resolution (src/impersonate.rs) -/

/-- The supported emulation profiles (the `Emulation` variants listed in
`EMULATION_LIST` / matched by `from_str`).  (Enum only; no claim is about
per-variant data.) -/
inductive Emulation where
  | Chrome100 | Chrome101 | Chrome104 | Chrome105 | Chrome106 | Chrome107
  | Chrome108 | Chrome109 | Chrome110 | Chrome114 | Chrome116 | Chrome117
  | Chrome118 | Chrome119 | Chrome120 | Chrome123 | Chrome124 | Chrome126
  | Chrome127 | Chrome128 | Chrome129 | Chrome130 | Chrome131 | Chrome132
  | Chrome133 | Chrome134 | Chrome135 | Chrome136 | Chrome137
  | SafariIos16_5 | SafariIos17_2 | SafariIos17_4_1 | SafariIos18_1_1
  | SafariIPad18
  | Safari15_3 | Safari15_5 | Safari15_6_1 | Safari16 | Safari16_5
  | Safari17_0 | Safari17_2_1 | Safari17_4_1 | Safari17_5 | Safari18
  | Safari18_2 | Safari18_3 | Safari18_3_1 | Safari18_5
  | OkHttp3_9 | OkHttp3_11 | OkHttp3_13 | OkHttp3_14 | OkHttp4_9
  | OkHttp4_10 | OkHttp4_12 | OkHttp5
  | Edge101 | Edge122 | Edge127 | Edge131 | Edge134
  | Firefox109 | Firefox117 | Firefox128 | Firefox133 | Firefox135
  | FirefoxPrivate135 | FirefoxAndroid135 | Firefox136 | FirefoxPrivate136
  | Firefox139
  | Opera116 | Opera117 | Opera118 | Opera119
deriving DecidableEq

/-- `EMULATION_LIST`: every supported profile, in declaration order. -/
def EMULATION_LIST : List Emulation :=
  [.Chrome100, .Chrome101, .Chrome104, .Chrome105, .Chrome106, .Chrome107,
   .Chrome108, .Chrome109, .Chrome110, .Chrome114, .Chrome116, .Chrome117,
   .Chrome118, .Chrome119, .Chrome120, .Chrome123, .Chrome124, .Chrome126,
   .Chrome127, .Chrome128, .Chrome129, .Chrome130, .Chrome131, .Chrome132,
   .Chrome133, .Chrome134, .Chrome135, .Chrome136, .Chrome137,
   .SafariIos16_5, .SafariIos17_2, .SafariIos17_4_1, .SafariIos18_1_1,
   .SafariIPad18,
   .Safari15_3, .Safari15_5, .Safari15_6_1, .Safari16, .Safari16_5,
   .Safari17_0, .Safari17_2_1, .Safari17_4_1, .Safari17_5, .Safari18,
   .Safari18_2, .Safari18_3, .Safari18_3_1, .Safari18_5,
   .OkHttp3_9, .OkHttp3_11, .OkHttp3_13, .OkHttp3_14, .OkHttp4_9,
   .OkHttp4_10, .OkHttp4_12, .OkHttp5,
   .Edge101, .Edge122, .Edge127, .Edge131, .Edge134,
   .Firefox109, .Firefox117, .Firefox128, .Firefox133, .Firefox135,
   .FirefoxPrivate135, .FirefoxAndroid135, .Firefox136, .FirefoxPrivate136,
   .Firefox139,
   .Opera116, .Opera117, .Opera118, .Opera119]

/-- `get_random_element`: `slice::choose` with an arbitrary random source,
modelled by an index `i`; it yields an element of the slice whenever the
slice is non-empty (the source unwraps the `Option`). -/
def get_random_element (i : Nat) (xs : List Emulation) (h : xs ≠ []) :
    Emulation :=
  xs.get ⟨i % xs.length, Nat.mod_lt _ (List.length_pos.mpr h)⟩

/-- The browser+version identifier strings accepted by `from_str`
(everything except `"random"`). -/
def SUPPORTED_STRS : List String :=
  ["chrome_100", "chrome_101", "chrome_104", "chrome_105", "chrome_106",
   "chrome_107", "chrome_108", "chrome_109", "chrome_110", "chrome_114",
   "chrome_116", "chrome_117", "chrome_118", "chrome_119", "chrome_120",
   "chrome_123", "chrome_124", "chrome_126", "chrome_127", "chrome_128",
   "chrome_129", "chrome_130", "chrome_131", "chrome_132", "chrome_133",
   "chrome_134", "chrome_135", "chrome_136", "chrome_137",
   "safari_ios_16.5", "safari_ios_17.2", "safari_ios_17.4.1",
   "safari_ios_18.1.1", "safari_ipad_18",
   "safari_15.3", "safari_15.5", "safari_15.6.1", "safari_16",
   "safari_16.5", "safari_17.0", "safari_17.2.1", "safari_17.4.1",
   "safari_17.5", "safari_18", "safari_18.2", "safari_18.3",
   "safari_18.3.1", "safari_18.5",
   "okhttp_3.9", "okhttp_3.11", "okhttp_3.13", "okhttp_3.14",
   "okhttp_4.9", "okhttp_4.10", "okhttp_4.12", "okhttp_5",
   "edge_101", "edge_122", "edge_127", "edge_131", "edge_134",
   "firefox_109", "firefox_117", "firefox_128", "firefox_133",
   "firefox_135", "firefox_private_135", "firefox_android_135",
   "firefox_136", "firefox_private_136", "firefox_139",
   "opera_116", "opera_117", "opera_118", "opera_119"]

/-- `EmulationFromStr::from_str`: each supported identifier maps to its
profile, `"random"` chooses from `EMULATION_LIST`, and anything else is an
`Invalid emulation` error.  The random source is modelled by the index
`i`. -/
def Emulation.from_str (i : Nat) (s : String) : Except String Emulation :=
  match s with
  | "chrome_100" => .ok .Chrome100
  | "chrome_101" => .ok .Chrome101
  | "chrome_104" => .ok .Chrome104
  | "chrome_105" => .ok .Chrome105
  | "chrome_106" => .ok .Chrome106
  | "chrome_107" => .ok .Chrome107
  | "chrome_108" => .ok .Chrome108
  | "chrome_109" => .ok .Chrome109
  | "chrome_110" => .ok .Chrome110
  | "chrome_114" => .ok .Chrome114
  | "chrome_116" => .ok .Chrome116
  | "chrome_117" => .ok .Chrome117
  | "chrome_118" => .ok .Chrome118
  | "chrome_119" => .ok .Chrome119
  | "chrome_120" => .ok .Chrome120
  | "chrome_123" => .ok .Chrome123
  | "chrome_124" => .ok .Chrome124
  | "chrome_126" => .ok .Chrome126
  | "chrome_127" => .ok .Chrome127
  | "chrome_128" => .ok .Chrome128
  | "chrome_129" => .ok .Chrome129
  | "chrome_130" => .ok .Chrome130
  | "chrome_131" => .ok .Chrome131
  | "chrome_132" => .ok .Chrome132
  | "chrome_133" => .ok .Chrome133
  | "chrome_134" => .ok .Chrome134
  | "chrome_135" => .ok .Chrome135
  | "chrome_136" => .ok .Chrome136
  | "chrome_137" => .ok .Chrome137
  | "safari_ios_16.5" => .ok .SafariIos16_5
  | "safari_ios_17.2" => .ok .SafariIos17_2
  | "safari_ios_17.4.1" => .ok .SafariIos17_4_1
  | "safari_ios_18.1.1" => .ok .SafariIos18_1_1
  | "safari_ipad_18" => .ok .SafariIPad18
  | "safari_15.3" => .ok .Safari15_3
  | "safari_15.5" => .ok .Safari15_5
  | "safari_15.6.1" => .ok .Safari15_6_1
  | "safari_16" => .ok .Safari16
  | "safari_16.5" => .ok .Safari16_5
  | "safari_17.0" => .ok .Safari17_0
  | "safari_17.2.1" => .ok .Safari17_2_1
  | "safari_17.4.1" => .ok .Safari17_4_1
  | "safari_17.5" => .ok .Safari17_5
  | "safari_18" => .ok .Safari18
  | "safari_18.2" => .ok .Safari18_2
  | "safari_18.3" => .ok .Safari18_3
  | "safari_18.3.1" => .ok .Safari18_3_1
  | "safari_18.5" => .ok .Safari18_5
  | "okhttp_3.9" => .ok .OkHttp3_9
  | "okhttp_3.11" => .ok .OkHttp3_11
  | "okhttp_3.13" => .ok .OkHttp3_13
  | "okhttp_3.14" => .ok .OkHttp3_14
  | "okhttp_4.9" => .ok .OkHttp4_9
  | "okhttp_4.10" => .ok .OkHttp4_10
  | "okhttp_4.12" => .ok .OkHttp4_12
  | "okhttp_5" => .ok .OkHttp5
  | "edge_101" => .ok .Edge101
  | "edge_122" => .ok .Edge122
  | "edge_127" => .ok .Edge127
  | "edge_131" => .ok .Edge131
  | "edge_134" => .ok .Edge134
  | "firefox_109" => .ok .Firefox109
  | "firefox_117" => .ok .Firefox117
  | "firefox_128" => .ok .Firefox128
  | "firefox_133" => .ok .Firefox133
  | "firefox_135" => .ok .Firefox135
  | "firefox_private_135" => .ok .FirefoxPrivate135
  | "firefox_android_135" => .ok .FirefoxAndroid135
  | "firefox_136" => .ok .Firefox136
  | "firefox_private_136" => .ok .FirefoxPrivate136
  | "firefox_139" => .ok .Firefox139
  | "opera_116" => .ok .Opera116
  | "opera_117" => .ok .Opera117
  | "opera_118" => .ok .Opera118
  | "opera_119" => .ok .Opera119
  | "random" => .ok (get_random_element i EMULATION_LIST (by decide))
  | _ => .error ("Invalid emulation: " ++ s)

/-- Whether an `Except` result is a success. -/
def isOkE (r : Except String Emulation) : Bool :=
  match r with
  | .ok _ => true
  | .error _ => false

/-- The process-wide once-per-identifier warning state of the fallback
policy: the unsupported identifiers already warned about. -/
structure WarnState where
  warned : List String
deriving DecidableEq

/-- Modelled from the spec: `parse_impersonate_with_fallback` (not under
src/; its caller client_builder.rs is) resolves a supported identifier via
`from_str`, and on an unsupported identifier falls back to a random
supported profile, logging one warning per unique unsupported identifier
per process.  Returns the profile, the updated warning state and the
warnings emitted by this call. -/
def parse_impersonate_with_fallback (i : Nat) (st : WarnState) (s : String) :
    Emulation × WarnState × List String :=
  match Emulation.from_str i s with
  | .ok e => (e, st, [])
  | .error _ =>
    let e := get_random_element i EMULATION_LIST (by decide)
    if s ∈ st.warned then (e, st, [])
    else (e, ⟨st.warned ++ [s]⟩, [s])

/-- Run a sequence of fallback resolutions from a warning state,
accumulating the log of emitted warnings (one entry per warning). -/
def runFallback (st : WarnState) (log : List String) :
    List (Nat × String) → WarnState × List String
  | [] => (st, log)
  | c :: rest =>
    let r := parse_impersonate_with_fallback c.1 st c.2
    runFallback r.2.1 (log ++ r.2.2) rest

/-! ### Statement-side predicates and concrete values -/

/-- Builder invariant of `SettingsOrderBuilder`: the u16 mask has exactly
the bits of the pushed ids, and the pushed ids are duplicate-free. -/
def SettingsOrderBuilder.Inv (b : SettingsOrderBuilder) : Prop :=
  (∀ id : SettingId, b.mask.testBit (id.value - 1) ↔ id ∈ b.ids) ∧
  b.ids.Nodup

/-- Builder invariant of `PrioritiesBuilder`: no zero stream id, pairwise
distinct stream ids, and the bitmap has exactly the bits of the kept
stream ids below the threshold. -/
def PrioritiesBuilder.Inv (b : PrioritiesBuilder) : Prop :=
  (∀ p ∈ b.priorities, p.stream_id ≠ 0) ∧
  (b.priorities.map Priority.stream_id).Nodup ∧
  ∀ i : Nat, b.inserted_bitmap.testBit i ↔
    (i < MAX_BITMAP_STREAMS ∧ ∃ p ∈ b.priorities, p.stream_id = i)

/-- The `Setting` variant for a given id and value. -/
def SettingId.toSetting : SettingId → Nat → Setting
  | .HeaderTableSize, v => .HeaderTableSize v
  | .EnablePush, v => .EnablePush v
  | .MaxConcurrentStreams, v => .MaxConcurrentStreams v
  | .InitialWindowSize, v => .InitialWindowSize v
  | .MaxFrameSize, v => .MaxFrameSize v
  | .MaxHeaderListSize, v => .MaxHeaderListSize v
  | .EnableConnectProtocol, v => .EnableConnectProtocol v
  | .NoRfc7540Priorities, v => .NoRfc7540Priorities v

/-- Set the field of a given id (the record update performed by the
corresponding `Settings::load` arm). -/
def Settings.setField (s : Settings) : SettingId → Nat → Settings
  | .HeaderTableSize, v => { s with header_table_size := some v }
  | .EnablePush, v => { s with enable_push := some v }
  | .MaxConcurrentStreams, v => { s with max_concurrent_streams := some v }
  | .InitialWindowSize, v => { s with initial_window_size := some v }
  | .MaxFrameSize, v => { s with max_frame_size := some v }
  | .MaxHeaderListSize, v => { s with max_header_list_size := some v }
  | .EnableConnectProtocol, v => { s with enable_connect_protocol := some v }
  | .NoRfc7540Priorities, v => { s with no_rfc7540_priorities := some v }

/-- A value the decoder accepts for a given id (a u32 within the checked
range of the corresponding `Settings::load` arm). -/
def validSettingValue (id : SettingId) (v : Nat) : Bool :=
  decide (v < 2 ^ 32) &&
    match id with
    | .EnablePush => v == 0 || v == 1
    | .EnableConnectProtocol => v == 0 || v == 1
    | .InitialWindowSize => decide (v ≤ MAX_INITIAL_WINDOW_SIZE)
    | .MaxFrameSize =>
      decide (DEFAULT_MAX_FRAME_SIZE ≤ v) && decide (v ≤ MAX_MAX_FRAME_SIZE)
    | _ => true

/-- The wire bytes of the settings of `s` along a given id order (what
`Settings::encode` writes for that order). -/
def Settings.encodeIds (s : Settings) : List SettingId → List Nat
  | [] => []
  | id :: ids =>
    (match s.settingsMap id with
     | some v => Setting.encode (id.toSetting v)
     | none => []) ++ s.encodeIds ids

/-- A `Settings` whose configured order omits the id of its one present
value: `Settings::default()` after `set_header_table_size(Some(1))` and
`set_settings_order(builder().build_without_extend())`. -/
def cexOrderOmits : Settings :=
  { Settings.default with
    header_table_size := some 1
    settings_order := SettingsOrder.builder.build_without_extend }

/-- An ACK `Settings` carrying a value: `Settings::ack()` after
`set_header_table_size(Some(1))`. -/
def cexAckWithValue : Settings :=
  { Settings.ack with header_table_size := some 1 }

/-- A `Settings` whose window size exceeds the decoder's bound:
`Settings::default()` after `set_initial_window_size(Some(2^31))`. -/
def cexWindowTooLarge : Settings :=
  { Settings.default with initial_window_size := some (2 ^ 31) }

/-! ## Theorems -/

/-! ### Settings order builder -/

theorem and_two_pow_eq_zero (n i : Nat) :
    n &&& 2 ^ i = 0 ↔ n.testBit i = false := by
  rw [Nat.and_two_pow]
  rcases h : n.testBit i <;> simp [h]

theorem SettingId.mask_id_eq (id : SettingId) :
    id.mask_id = 2 ^ (id.value - 1) := by
  cases id <;> decide

theorem SettingId.mask_id_ne_zero (id : SettingId) : id.mask_id ≠ 0 := by
  cases id <;> decide

theorem SettingId.value_sub_one_inj (a b : SettingId)
    (h : a.value - 1 = b.value - 1) : a = b := by
  revert h; cases a <;> cases b <;> decide

theorem SettingsOrderBuilder.push_eq (b : SettingsOrderBuilder)
    (id : SettingId) (h : b.Inv) :
    b.push id = if id ∈ b.ids then b
      else ⟨b.ids ++ [id], b.mask ||| id.mask_id⟩ := by
  by_cases hmem : id ∈ b.ids
  · have hbit : b.mask.testBit (id.value - 1) = true := (h.1 id).mpr hmem
    simp [SettingsOrderBuilder.push, SettingId.mask_id_ne_zero,
      SettingId.mask_id_eq, and_two_pow_eq_zero, hbit, hmem]
  · have hbit : b.mask.testBit (id.value - 1) = false := by
      rcases hb : b.mask.testBit (id.value - 1) with _ | _
      · rfl
      · exact absurd ((h.1 id).mp hb) hmem
    simp [SettingsOrderBuilder.push, SettingId.mask_id_ne_zero,
      SettingId.mask_id_eq, and_two_pow_eq_zero, hbit, hmem]

theorem SettingsOrderBuilder.push_inv (b : SettingsOrderBuilder)
    (id : SettingId) (h : b.Inv) : (b.push id).Inv := by
  rw [SettingsOrderBuilder.push_eq b id h]
  by_cases hmem : id ∈ b.ids
  · simpa [hmem] using h
  · simp only [hmem, if_false]
    refine ⟨fun id' => ?_, ?_⟩
    · rw [SettingId.mask_id_eq]
      simp only [Nat.testBit_lor, Nat.testBit_two_pow, List.mem_append,
        List.mem_singleton, Bool.or_eq_true, decide_eq_true_eq]
      constructor
      · rintro (hb | hv)
        · exact Or.inl ((h.1 id').mp hb)
        · exact Or.inr (SettingId.value_sub_one_inj id id' hv).symm
      · rintro (hmem' | rfl)
        · exact Or.inl ((h.1 id').mpr hmem')
        · exact Or.inr rfl
    · simp [List.nodup_append, h.2, hmem]

theorem SettingsOrderBuilder.push_ids (b : SettingsOrderBuilder)
    (id : SettingId) (h : b.Inv) :
    (b.push id).ids = appendNew b.ids id := by
  rw [SettingsOrderBuilder.push_eq b id h]
  unfold appendNew
  by_cases hmem : id ∈ b.ids <;> simp [hmem]

theorem SettingsOrderBuilder.extend_spec (l : List SettingId) :
    ∀ b : SettingsOrderBuilder, b.Inv →
      (b.extend l).Inv ∧ (b.extend l).ids = pushedFrom b.ids l := by
  induction l with
  | nil => exact fun b hb => ⟨hb, rfl⟩
  | cons id l ih =>
    intro b hb
    have hstep : b.extend (id :: l) = (b.push id).extend l := rfl
    rcases ih (b.push id) (SettingsOrderBuilder.push_inv b id hb) with ⟨h1, h2⟩
    refine ⟨by rwa [hstep], ?_⟩
    rw [hstep, h2, SettingsOrderBuilder.push_ids b id hb]
    rfl

theorem settingsBuilder_init_inv : SettingsOrder.builder.Inv :=
  ⟨fun id => by simp [SettingsOrder.builder, Nat.zero_testBit], List.nodup_nil⟩

theorem pushedFrom_filter (l : List SettingId) :
    ∀ seen, l.Nodup →
      pushedFrom seen l = seen ++ l.filter (fun a => decide (a ∉ seen)) := by
  induction l with
  | nil => simp [pushedFrom]
  | cons a l ih =>
    intro seen hnd
    have hstep : pushedFrom seen (a :: l) = pushedFrom (appendNew seen a) l :=
      rfl
    rcases List.nodup_cons.mp hnd with ⟨hal, hl⟩
    by_cases hmem : a ∈ seen
    · rw [hstep]
      unfold appendNew
      rw [if_pos hmem, ih seen hl]
      simp [List.filter_cons, hmem]
    · rw [hstep]
      unfold appendNew
      rw [if_neg hmem, ih _ hl]
      have hfc : l.filter (fun x => decide (x ∉ seen ++ [a]))
          = l.filter (fun x => decide (x ∉ seen)) := by
        apply List.filter_congr
        intro x hx
        have hxa : x ≠ a := fun hEq => hal (hEq ▸ hx)
        simp [List.mem_append, hxa]
      rw [hfc]
      simp [List.filter_cons, hmem]

theorem pushedOrder_spec (l : List SettingId) :
    (SettingsOrder.builder.extend l).Inv ∧
      (SettingsOrder.builder.extend l).ids = pushedOrder l :=
  SettingsOrderBuilder.extend_spec l SettingsOrder.builder
    settingsBuilder_init_inv

theorem SettingId.mem_DEFAULT_IDS (id : SettingId) :
    id ∈ SettingId.DEFAULT_IDS := by
  cases id <;> decide

theorem settings_order_build_eq (l : List SettingId) :
    ((SettingsOrder.builder.extend l).build).ids
      = pushedOrder l ++
        SettingId.DEFAULT_IDS.filter (fun id => decide (id ∉ pushedOrder l)) := by
  obtain ⟨hinv, hids⟩ := pushedOrder_spec l
  unfold SettingsOrderBuilder.build
  split
  · obtain ⟨-, h2⟩ :=
      SettingsOrderBuilder.extend_spec SettingId.DEFAULT_IDS _ hinv
    dsimp only
    rw [h2, pushedFrom_filter _ _ (by decide), hids]
  · rename_i hlen
    dsimp only
    have hlen' : (SettingsOrder.builder.extend l).ids.length =
        SettingId.DEFAULT_IDS.length := by omega
    have hcomplete : ∀ id : SettingId, id ∈ pushedOrder l := by
      intro id
      rw [← hids]
      have hcard : (SettingsOrder.builder.extend l).ids.toFinset.card = 8 := by
        rw [List.toFinset_card_of_nodup hinv.2, hlen']
        rfl
      have huniv : (SettingsOrder.builder.extend l).ids.toFinset
          = Finset.univ :=
        Finset.eq_univ_of_card _ (by rw [hcard]; rfl)
      have hmem : id ∈ (SettingsOrder.builder.extend l).ids.toFinset := by
        rw [huniv]; exact Finset.mem_univ id
      simpa [List.mem_toFinset] using hmem
    have hfil : SettingId.DEFAULT_IDS.filter
        (fun id => decide (id ∉ pushedOrder l)) = [] := by
      rw [List.filter_eq_nil_iff]
      intro a _
      simpa using hcomplete a
    rw [hfil, List.append_nil]
    exact hids

/-- C4: over any sequence of pushes, `build()` returns the explicitly
pushed ids first in push order followed by the missing known ids in
canonical default order, containing every known `SettingId` exactly once;
`build_without_extend()` returns exactly the distinct pushed ids in
first-push order with nothing appended. -/
theorem settingsOrder_build_complete (l : List SettingId) :
    (((SettingsOrder.builder.extend l).build).ids
        = pushedOrder l ++
          SettingId.DEFAULT_IDS.filter (fun id => decide (id ∉ pushedOrder l)))
    ∧ (∀ id : SettingId,
        ((SettingsOrder.builder.extend l).build).ids.count id = 1)
    ∧ ((SettingsOrder.builder.extend l).build_without_extend).ids
        = pushedOrder l := by
  obtain ⟨hinv, hids⟩ := pushedOrder_spec l
  have heq := settings_order_build_eq l
  refine ⟨heq, ?_, hids⟩
  intro id
  rw [heq]
  have hnodup_p : (pushedOrder l).Nodup := by
    rw [← hids]; exact hinv.2
  apply List.count_eq_one_of_mem
  · rw [List.nodup_append]
    refine ⟨hnodup_p, List.Nodup.filter _ (by decide), ?_⟩
    intro a ha hb
    have hnot := List.of_mem_filter hb
    simp only [decide_eq_true_eq] at hnot
    exact hnot ha
  · by_cases hmem : id ∈ pushedOrder l
    · exact List.mem_append.mpr (Or.inl hmem)
    · refine List.mem_append.mpr (Or.inr ?_)
      exact List.mem_filter.mpr
        ⟨SettingId.mem_DEFAULT_IDS id, by simpa using hmem⟩

/-- C5: pushing an id already present leaves the builder's id list
unchanged (the id keeps its first-push position), pushing a fresh id
appends it at the end, and after the push the id appears exactly once. -/
theorem settingsOrder_push_idempotent (l : List SettingId) (id : SettingId) :
    (((SettingsOrder.builder.extend l).push id).ids
        = if id ∈ (SettingsOrder.builder.extend l).ids
          then (SettingsOrder.builder.extend l).ids
          else (SettingsOrder.builder.extend l).ids ++ [id])
    ∧ ((SettingsOrder.builder.extend l).push id).ids.count id = 1 := by
  obtain ⟨hinv, -⟩ := pushedOrder_spec l
  have hids := SettingsOrderBuilder.push_ids _ id hinv
  constructor
  · rw [hids]; rfl
  · have hinv' := SettingsOrderBuilder.push_inv _ id hinv
    apply List.count_eq_one_of_mem hinv'.2
    rw [hids]
    unfold appendNew
    by_cases hmem : id ∈ (SettingsOrder.builder.extend l).ids
    · simp [hmem]
    · simp [hmem]

/-! ### Priorities builder -/

theorem PrioritiesBuilder.push_spec (b : PrioritiesBuilder) (p : Priority)
    (h : b.Inv) :
    (b.push p).Inv ∧
      (b.push p).priorities =
        if p.stream_id = 0 ∨
            p.stream_id ∈ b.priorities.map Priority.stream_id
        then b.priorities else b.priorities ++ [p] := by
  obtain ⟨hz, hnd, hbits⟩ := h
  by_cases h0 : p.stream_id = 0
  · constructor
    · simpa [PrioritiesBuilder.push, h0] using ⟨hz, hnd, hbits⟩
    · simp [PrioritiesBuilder.push, h0]
  · by_cases hmem : p.stream_id ∈ b.priorities.map Priority.stream_id
    · have hpush : b.push p = b := by
        by_cases hlt : p.stream_id < MAX_BITMAP_STREAMS
        · have hbit : b.inserted_bitmap.testBit p.stream_id = true := by
            rw [hbits]
            rcases List.mem_map.mp hmem with ⟨q, hq, hq2⟩
            exact ⟨hlt, q, hq, hq2⟩
          have hand : b.inserted_bitmap &&& 2 ^ p.stream_id ≠ 0 := by
            rw [Ne, and_two_pow_eq_zero, hbit]
            simp
          simp [PrioritiesBuilder.push, h0, hlt, hand]
        · have hany : (b.priorities.any
              fun q => q.stream_id == p.stream_id) = true := by
            rw [List.any_eq_true]
            rcases List.mem_map.mp hmem with ⟨q, hq, hq2⟩
            exact ⟨q, hq, by simpa using hq2⟩
          simp [PrioritiesBuilder.push, h0, hlt, hany]
      rw [hpush]
      constructor
      · exact ⟨hz, hnd, hbits⟩
      · simp [h0, hmem]
    · have hgoal : (b.push p).priorities = b.priorities ++ [p] ∧
          (b.push p).inserted_bitmap =
            (if p.stream_id < MAX_BITMAP_STREAMS then
              b.inserted_bitmap ||| 2 ^ p.stream_id
            else b.inserted_bitmap) := by
        by_cases hlt : p.stream_id < MAX_BITMAP_STREAMS
        · have hbit : b.inserted_bitmap.testBit p.stream_id = false := by
            rcases hb : b.inserted_bitmap.testBit p.stream_id with _ | _
            · rfl
            · rcases (hbits _).mp hb with ⟨-, q, hq, hq2⟩
              exact absurd (List.mem_map.mpr ⟨q, hq, hq2⟩) hmem
          have hand : b.inserted_bitmap &&& 2 ^ p.stream_id = 0 :=
            (and_two_pow_eq_zero _ _).mpr hbit
          simp [PrioritiesBuilder.push, h0, hlt, hand]
        · have hany : (b.priorities.any
              fun q => q.stream_id == p.stream_id) = false := by
            rw [Bool.eq_false_iff, Ne, List.any_eq_true]
            rintro ⟨q, hq, he⟩
            exact hmem (List.mem_map.mpr ⟨q, hq, by simpa using he⟩)
          simp [PrioritiesBuilder.push, h0, hlt, hany]
      refine ⟨⟨?_, ?_, ?_⟩, by simp [hgoal.1, h0, hmem]⟩
      · rw [hgoal.1]
        intro q hq
        rcases List.mem_append.mp hq with hq | hq
        · exact hz q hq
        · rw [List.mem_singleton.mp hq]
          exact h0
      · rw [hgoal.1]
        simp only [List.map_append, List.map_cons, List.map_nil]
        rw [List.nodup_append]
        refine ⟨hnd, List.nodup_singleton _, ?_⟩
        intro a ha hb
        rw [List.mem_singleton.mp hb] at ha
        exact hmem ha
      · intro i
        rw [hgoal.1, hgoal.2]
        by_cases hlt : p.stream_id < MAX_BITMAP_STREAMS
        · rw [if_pos hlt]
          simp only [Nat.testBit_lor, Nat.testBit_two_pow,
            Bool.or_eq_true, decide_eq_true_eq]
          constructor
          · rintro (hb | rfl)
            · rcases (hbits i).mp hb with ⟨hi, q, hq, hq2⟩
              exact ⟨hi, q, List.mem_append.mpr (Or.inl hq), hq2⟩
            · exact ⟨hlt, p, List.mem_append.mpr (Or.inr (by simp)), rfl⟩
          · rintro ⟨hi, q, hq, hq2⟩
            rcases List.mem_append.mp hq with hq | hq
            · exact Or.inl ((hbits i).mpr ⟨hi, q, hq, hq2⟩)
            · rw [List.mem_singleton.mp hq] at hq2
              exact Or.inr hq2
        · rw [if_neg hlt]
          rw [hbits i]
          constructor
          · rintro ⟨hi, q, hq, hq2⟩
            exact ⟨hi, q, List.mem_append.mpr (Or.inl hq), hq2⟩
          · rintro ⟨hi, q, hq, hq2⟩
            rcases List.mem_append.mp hq with hq | hq
            · exact ⟨hi, q, hq, hq2⟩
            · rw [List.mem_singleton.mp hq] at hq2
              rw [← hq2] at hi
              exact absurd hi hlt

theorem PrioritiesBuilder.extend_inv (l : List Priority) :
    ∀ b : PrioritiesBuilder, b.Inv → (b.extend l).Inv := by
  induction l with
  | nil => exact fun b hb => hb
  | cons p l ih =>
    intro b hb
    exact ih (b.push p) (PrioritiesBuilder.push_spec b p hb).1

theorem prioritiesBuilder_init_inv : Priorities.builder.Inv := by
  refine ⟨by simp [Priorities.builder], by simp [Priorities.builder], ?_⟩
  intro i
  simp [Priorities.builder, Nat.zero_testBit]

/-- C6: pushing a priority with stream id 0 or with an already-present
stream id (below or at/above the bitmap threshold) leaves the collection
unchanged, a fresh one is appended at the end, and the built collection
always has nonzero, pairwise-distinct stream ids. -/
theorem priorities_push_contract (l : List Priority) (p : Priority) :
    (((Priorities.builder.extend l).push p).priorities
        = if p.stream_id = 0 ∨ p.stream_id ∈
              (Priorities.builder.extend l).priorities.map Priority.stream_id
          then (Priorities.builder.extend l).priorities
          else (Priorities.builder.extend l).priorities ++ [p])
    ∧ (∀ q ∈ ((Priorities.builder.extend l).build).priorities,
        q.stream_id ≠ 0)
    ∧ (((Priorities.builder.extend l).build).priorities.map
        Priority.stream_id).Nodup := by
  have hinv := PrioritiesBuilder.extend_inv l Priorities.builder
    prioritiesBuilder_init_inv
  exact ⟨(PrioritiesBuilder.push_spec _ p hinv).2, hinv.1, hinv.2.1⟩

/-- Witness for C6: with pushes [1, 0, 1, 40, 40] then 2, the entry kept
for stream 1 has a nonzero id, and pushing the fresh id 2 appends it. -/
theorem priorities_push_contract_witness :
    (⟨1, StreamDependency.chrome⟩ : Priority).stream_id ≠ 0 :=
  (priorities_push_contract
    [⟨1, StreamDependency.chrome⟩, ⟨0, StreamDependency.chrome⟩,
     ⟨1, StreamDependency.chrome⟩, ⟨40, StreamDependency.chrome⟩,
     ⟨40, StreamDependency.chrome⟩]
    ⟨2, StreamDependency.chrome⟩).2.1
    ⟨1, StreamDependency.chrome⟩ (by decide)

/-! ### Priority frame decode -/

/-- C8: `Priority::load` always succeeds with the head's stream id and the
fixed anchor triple {dependency id 0, weight 255, exclusive}; the wire
payload never influences the result. -/
theorem priority_load_fixed_anchor (head : Head) (payload : List Nat) :
    Priority.load head payload
      = .ok ⟨head.stream_id, StreamDependency.chrome⟩
    ∧ StreamDependency.chrome = ⟨0, 255, true⟩
    ∧ ∀ payload₂ : List Nat,
        Priority.load head payload = Priority.load head payload₂ :=
  ⟨rfl, rfl, fun _ => rfl⟩

/-- C7: a stream-dependency payload decodes successfully iff it is exactly
5 bytes, yielding the 31-bit dependency id and 1-bit exclusive flag from
the first 4 big-endian bytes and the weight from the fifth; any other
length yields `InvalidPayloadLength`. -/
theorem stream_dependency_load_contract :
    (∀ src : List Nat, src.length ≠ 5 →
        StreamDependency.load src = .error .InvalidPayloadLength)
    ∧ (∀ b0 b1 b2 b3 b4 : Nat,
        StreamDependency.load [b0, b1, b2, b3, b4]
          = .ok (StreamDependency.new (StreamId.parse b0 b1 b2 b3).1 b4
              (StreamId.parse b0 b1 b2 b3).2))
    ∧ (∀ b0 b1 b2 b3 b4 : Nat,
        b0 < 256 → b1 < 256 → b2 < 256 → b3 < 256 →
        StreamDependency.load [b0, b1, b2, b3, b4]
          = .ok ⟨unpackU32 b0 b1 b2 b3 % 2 ^ 31, b4,
              decide (2 ^ 31 ≤ unpackU32 b0 b1 b2 b3)⟩) := by
  refine ⟨?_, fun b0 b1 b2 b3 b4 => rfl, ?_⟩
  · intro src h5
    unfold StreamDependency.load
    split
    · rename_i b0 b1 b2 b3 b4
      simp at h5
    · rfl
  · intro b0 b1 b2 b3 b4 h0 h1 h2 h3
    have h24 : (2 : Nat) ^ 24 = 16777216 := by norm_num
    have h16 : (2 : Nat) ^ 16 = 65536 := by norm_num
    have h8 : (2 : Nat) ^ 8 = 256 := by norm_num
    have h31 : (2 : Nat) ^ 31 = 2147483648 := by norm_num
    have hu : unpackU32 b0 b1 b2 b3 < 2 ^ 32 := by
      unfold unpackU32
      simp only [h24, h16, h8]
      have h32 : (2 : Nat) ^ 32 = 4294967296 := by norm_num
      omega
    have hp1 : (StreamId.parse b0 b1 b2 b3).1
        = unpackU32 b0 b1 b2 b3 % 2 ^ 31 :=
      Nat.and_pow_two_sub_one_eq_mod (unpackU32 b0 b1 b2 b3) 31
    have hp2 : (StreamId.parse b0 b1 b2 b3).2
        = decide (2 ^ 31 ≤ unpackU32 b0 b1 b2 b3) := by
      show (unpackU32 b0 b1 b2 b3 &&& 2 ^ 31 == 2 ^ 31)
        = decide (2 ^ 31 ≤ unpackU32 b0 b1 b2 b3)
      rw [Nat.and_two_pow, Nat.testBit_to_div_mod, h31]
      have h32 : (2 : Nat) ^ 32 = 4294967296 := by norm_num
      rw [h32] at hu
      rcases Nat.lt_or_ge (unpackU32 b0 b1 b2 b3) 2147483648 with hlt | hge
      · have hdiv : unpackU32 b0 b1 b2 b3 / 2147483648 = 0 :=
          Nat.div_eq_of_lt hlt
        simp [hdiv, Nat.not_le.mpr hlt]
      · have hdiv : unpackU32 b0 b1 b2 b3 / 2147483648 = 1 := by omega
        simp [hdiv, hge]
    show Except.ok (StreamDependency.new (StreamId.parse b0 b1 b2 b3).1 b4
      (StreamId.parse b0 b1 b2 b3).2) = _
    rw [hp1, hp2]
    rfl

/-- Witness for C7: a 3-byte payload is rejected and a concrete 5-byte
payload parses to {id 1, weight 7, exclusive}. -/
theorem stream_dependency_load_contract_witness :
    StreamDependency.load [9, 9, 9] = .error .InvalidPayloadLength ∧
    StreamDependency.load [128, 0, 0, 1, 7] = .ok ⟨1, 7, true⟩ := by
  constructor
  · exact stream_dependency_load_contract.1 [9, 9, 9] (by decide)
  · rw [stream_dependency_load_contract.2.2 128 0 0 1 7 (by decide)
      (by decide) (by decide) (by decide)]
    norm_num [unpackU32]

/-! ### Edge 144 profile -/

/-- C1: the Edge 144 HTTP/2 configuration uses the settings order
[HeaderTableSize, EnablePush, InitialWindowSize, MaxHeaderListSize];
its SETTINGS frame encodes exactly the pairs 1:65536, 2:0, 4:6291456,
6:262144 in that order; the initial connection window is
65535 + 15663105; the pseudo-header order is Method, Authority, Scheme,
Path. -/
theorem edge144_http2_profile :
    build_http2_settings_edge.settings_order =
      some ⟨[.HeaderTableSize, .EnablePush, .InitialWindowSize,
             .MaxHeaderListSize]⟩
    ∧ build_http2_settings_edge.toSettings.for_each.map Setting.encodeKindVal
        = [(1, 65536), (2, 0), (4, 6291456), (6, 262144)]
    ∧ build_http2_settings_edge.initial_connection_window_size
        = some (65535 + 15663105)
    ∧ build_http2_settings_edge.headers_pseudo_order
        = some ⟨[.Method, .Authority, .Scheme, .Path]⟩ := by
  refine ⟨by decide, by decide, by decide, by decide⟩

/-! ### Edge and Opera TLS tables versus Chrome -/

/-- Counterexample to C9: Opera's extension-order seed and
extension-permutation flag differ from Chrome's. -/
theorem edge_opera_tables_cex :
    extension_order.OPERA ≠ extension_order.CHROME ∧
    extension_permutation.OPERA ≠ extension_permutation.CHROME := by
  decide

/-- C9 (amended): Edge's and Opera's cipher-suite, signature-algorithm and
named-group tables equal Chrome's element for element, and Edge also
shares Chrome's extension-order seed and permutation flag; but Opera's
extension-order seed is 0x0271 (not Chrome's) and Opera permutes
extensions (Chrome does not). -/
theorem edge_opera_tables_amended :
    cipher_suites.EDGE = cipher_suites.CHROME
    ∧ cipher_suites.OPERA = cipher_suites.CHROME
    ∧ signature_algorithms.EDGE = signature_algorithms.CHROME
    ∧ signature_algorithms.OPERA = signature_algorithms.CHROME
    ∧ named_groups.EDGE = named_groups.CHROME
    ∧ named_groups.OPERA = named_groups.CHROME
    ∧ extension_order.EDGE = extension_order.CHROME
    ∧ extension_permutation.EDGE = extension_permutation.CHROME
    ∧ extension_order.OPERA = 0x0271
    ∧ extension_order.OPERA ≠ extension_order.CHROME
    ∧ extension_permutation.OPERA = true
    ∧ extension_permutation.OPERA ≠ extension_permutation.CHROME := by
  decide

/-! ### Settings decode contract -/

theorem Setting.from_id_eq (id v : Nat) (st : Setting)
    (h : Setting.from_id id v = some st) : (id, v) = st.encodeKindVal := by
  unfold Setting.from_id at h
  split at h <;> try (injection h with h2; subst h2; rfl)
  simp at h

theorem Setting.from_id_none_not_bad (id v : Nat)
    (h : Setting.from_id id v = none) : badField (id, v) = false := by
  have h2 : id ≠ 2 := by rintro rfl; simp [Setting.from_id] at h
  have h4 : id ≠ 4 := by rintro rfl; simp [Setting.from_id] at h
  have h5 : id ≠ 5 := by rintro rfl; simp [Setting.from_id] at h
  have h8 : id ≠ 8 := by rintro rfl; simp [Setting.from_id] at h
  simp [badField, h2, h4, h5, h8]

theorem Settings.loadLoop_short (s : Settings) (t : List Nat)
    (hshape : ∀ (b0 b1 b2 b3 b4 b5 : Nat) (rest : List Nat),
      t = b0 :: b1 :: b2 :: b3 :: b4 :: b5 :: rest → False) :
    Settings.loadLoop s t = .ok s ∧ settingsFields t = [] := by
  rcases t with _ | ⟨x0, _ | ⟨x1, _ | ⟨x2, _ | ⟨x3, _ | ⟨x4, _ | ⟨x5, r⟩⟩⟩⟩⟩⟩
  · exact ⟨rfl, rfl⟩
  · exact ⟨rfl, rfl⟩
  · exact ⟨rfl, rfl⟩
  · exact ⟨rfl, rfl⟩
  · exact ⟨rfl, rfl⟩
  · exact ⟨rfl, rfl⟩
  · exact (hshape x0 x1 x2 x3 x4 x5 r rfl).elim

theorem Settings.loadLoop_ok_of_good (s : Settings) (payload : List Nat) :
    (∀ p ∈ settingsFields payload, badField p = false) →
    ∃ s', Settings.loadLoop s payload = .ok s' := by
  induction s, payload using Settings.loadLoop.induct with
  | case1 s b0 b1 b2 b3 b4 b5 rest v heq ih =>
    intro h
    have hstep : Settings.loadLoop s (b0 :: b1 :: b2 :: b3 :: b4 :: b5 :: rest)
        = Settings.loadLoop { s with header_table_size := some v } rest := by
      simp [Settings.loadLoop, heq]
    rw [hstep]
    exact ih fun p hp => h p (List.mem_cons_of_mem _ hp)
  | case2 s b0 b1 b2 b3 b4 b5 rest v heq hcond ih =>
    intro h
    have hstep : Settings.loadLoop s (b0 :: b1 :: b2 :: b3 :: b4 :: b5 :: rest)
        = Settings.loadLoop { s with enable_push := some v } rest := by
      rcases hcond with rfl | rfl <;> simp [Settings.loadLoop, heq]
    rw [hstep]
    exact ih fun p hp => h p (List.mem_cons_of_mem _ hp)
  | case3 s b0 b1 b2 b3 b4 b5 rest v heq hcond =>
    intro h
    exfalso
    have hf := h (unpackU16 b0 b1, unpackU32 b2 b3 b4 b5)
      (List.mem_cons_self _ _)
    rw [Setting.from_id_eq _ _ _ heq] at hf
    push_neg at hcond
    simp [badField, Setting.encodeKindVal, hcond.1, hcond.2] at hf
  | case4 s b0 b1 b2 b3 b4 b5 rest v heq ih =>
    intro h
    have hstep : Settings.loadLoop s (b0 :: b1 :: b2 :: b3 :: b4 :: b5 :: rest)
        = Settings.loadLoop { s with max_concurrent_streams := some v } rest := by
      simp [Settings.loadLoop, heq]
    rw [hstep]
    exact ih fun p hp => h p (List.mem_cons_of_mem _ hp)
  | case5 s b0 b1 b2 b3 b4 b5 rest v heq hcond =>
    intro h
    exfalso
    have hf := h (unpackU16 b0 b1, unpackU32 b2 b3 b4 b5)
      (List.mem_cons_self _ _)
    rw [Setting.from_id_eq _ _ _ heq] at hf
    simp [badField, Setting.encodeKindVal, hcond] at hf
  | case6 s b0 b1 b2 b3 b4 b5 rest v heq hcond ih =>
    intro h
    have hstep : Settings.loadLoop s (b0 :: b1 :: b2 :: b3 :: b4 :: b5 :: rest)
        = Settings.loadLoop { s with initial_window_size := some v } rest := by
      simp [Settings.loadLoop, heq, hcond]
    rw [hstep]
    exact ih fun p hp => h p (List.mem_cons_of_mem _ hp)
  | case7 s b0 b1 b2 b3 b4 b5 rest v heq hcond ih =>
    intro h
    have hstep : Settings.loadLoop s (b0 :: b1 :: b2 :: b3 :: b4 :: b5 :: rest)
        = Settings.loadLoop { s with max_frame_size := some v } rest := by
      simp [Settings.loadLoop, heq, hcond]
    rw [hstep]
    exact ih fun p hp => h p (List.mem_cons_of_mem _ hp)
  | case8 s b0 b1 b2 b3 b4 b5 rest v heq hcond =>
    intro h
    exfalso
    have hf := h (unpackU16 b0 b1, unpackU32 b2 b3 b4 b5)
      (List.mem_cons_self _ _)
    rw [Setting.from_id_eq _ _ _ heq] at hf
    simp [badField, Setting.encodeKindVal] at hf
    exact hcond hf
  | case9 s b0 b1 b2 b3 b4 b5 rest v heq ih =>
    intro h
    have hstep : Settings.loadLoop s (b0 :: b1 :: b2 :: b3 :: b4 :: b5 :: rest)
        = Settings.loadLoop { s with max_header_list_size := some v } rest := by
      simp [Settings.loadLoop, heq]
    rw [hstep]
    exact ih fun p hp => h p (List.mem_cons_of_mem _ hp)
  | case10 s b0 b1 b2 b3 b4 b5 rest v heq hcond ih =>
    intro h
    have hstep : Settings.loadLoop s (b0 :: b1 :: b2 :: b3 :: b4 :: b5 :: rest)
        = Settings.loadLoop { s with enable_connect_protocol := some v } rest := by
      rcases hcond with rfl | rfl <;> simp [Settings.loadLoop, heq]
    rw [hstep]
    exact ih fun p hp => h p (List.mem_cons_of_mem _ hp)
  | case11 s b0 b1 b2 b3 b4 b5 rest v heq hcond =>
    intro h
    exfalso
    have hf := h (unpackU16 b0 b1, unpackU32 b2 b3 b4 b5)
      (List.mem_cons_self _ _)
    rw [Setting.from_id_eq _ _ _ heq] at hf
    push_neg at hcond
    simp [badField, Setting.encodeKindVal, hcond.1, hcond.2] at hf
  | case12 s b0 b1 b2 b3 b4 b5 rest v heq ih =>
    intro h
    have hstep : Settings.loadLoop s (b0 :: b1 :: b2 :: b3 :: b4 :: b5 :: rest)
        = Settings.loadLoop { s with no_rfc7540_priorities := some v } rest := by
      simp [Settings.loadLoop, heq]
    rw [hstep]
    exact ih fun p hp => h p (List.mem_cons_of_mem _ hp)
  | case13 s b0 b1 b2 b3 b4 b5 rest heq ih =>
    intro h
    have hstep : Settings.loadLoop s (b0 :: b1 :: b2 :: b3 :: b4 :: b5 :: rest)
        = Settings.loadLoop s rest := by
      simp [Settings.loadLoop, heq]
    rw [hstep]
    exact ih fun p hp => h p (List.mem_cons_of_mem _ hp)
  | case14 t s hshape =>
    exact fun _ => ⟨s, (Settings.loadLoop_short s t hshape).1⟩

theorem Settings.loadLoop_error_of_bad (s : Settings) (payload : List Nat) :
    (∃ p ∈ settingsFields payload, badField p = true) →
    Settings.loadLoop s payload = .error .InvalidSettingValue := by
  induction s, payload using Settings.loadLoop.induct with
  | case1 s b0 b1 b2 b3 b4 b5 rest v heq ih =>
    rintro ⟨p, hp, hbad⟩
    rcases List.mem_cons.mp hp with rfl | hp'
    · rw [Setting.from_id_eq _ _ _ heq] at hbad
      simp [badField, Setting.encodeKindVal] at hbad
    · have hstep : Settings.loadLoop s (b0 :: b1 :: b2 :: b3 :: b4 :: b5 :: rest)
          = Settings.loadLoop { s with header_table_size := some v } rest := by
        simp [Settings.loadLoop, heq]
      rw [hstep]
      exact ih ⟨p, hp', hbad⟩
  | case2 s b0 b1 b2 b3 b4 b5 rest v heq hcond ih =>
    rintro ⟨p, hp, hbad⟩
    rcases List.mem_cons.mp hp with rfl | hp'
    · rw [Setting.from_id_eq _ _ _ heq] at hbad
      rcases hcond with rfl | rfl <;>
        simp [badField, Setting.encodeKindVal] at hbad
    · have hstep : Settings.loadLoop s (b0 :: b1 :: b2 :: b3 :: b4 :: b5 :: rest)
          = Settings.loadLoop { s with enable_push := some v } rest := by
        rcases hcond with rfl | rfl <;> simp [Settings.loadLoop, heq]
      rw [hstep]
      exact ih ⟨p, hp', hbad⟩
  | case3 s b0 b1 b2 b3 b4 b5 rest v heq hcond =>
    intro
    simp [Settings.loadLoop, heq, hcond]
  | case4 s b0 b1 b2 b3 b4 b5 rest v heq ih =>
    rintro ⟨p, hp, hbad⟩
    rcases List.mem_cons.mp hp with rfl | hp'
    · rw [Setting.from_id_eq _ _ _ heq] at hbad
      simp [badField, Setting.encodeKindVal] at hbad
    · have hstep : Settings.loadLoop s (b0 :: b1 :: b2 :: b3 :: b4 :: b5 :: rest)
          = Settings.loadLoop { s with max_concurrent_streams := some v } rest := by
        simp [Settings.loadLoop, heq]
      rw [hstep]
      exact ih ⟨p, hp', hbad⟩
  | case5 s b0 b1 b2 b3 b4 b5 rest v heq hcond =>
    intro
    simp [Settings.loadLoop, heq, hcond]
  | case6 s b0 b1 b2 b3 b4 b5 rest v heq hcond ih =>
    rintro ⟨p, hp, hbad⟩
    rcases List.mem_cons.mp hp with rfl | hp'
    · rw [Setting.from_id_eq _ _ _ heq] at hbad
      simp [badField, Setting.encodeKindVal, hcond] at hbad
    · have hstep : Settings.loadLoop s (b0 :: b1 :: b2 :: b3 :: b4 :: b5 :: rest)
          = Settings.loadLoop { s with initial_window_size := some v } rest := by
        simp [Settings.loadLoop, heq, hcond]
      rw [hstep]
      exact ih ⟨p, hp', hbad⟩
  | case7 s b0 b1 b2 b3 b4 b5 rest v heq hcond ih =>
    rintro ⟨p, hp, hbad⟩
    rcases List.mem_cons.mp hp with rfl | hp'
    · rw [Setting.from_id_eq _ _ _ heq] at hbad
      simp [badField, Setting.encodeKindVal, hcond.1, hcond.2] at hbad
    · have hstep : Settings.loadLoop s (b0 :: b1 :: b2 :: b3 :: b4 :: b5 :: rest)
          = Settings.loadLoop { s with max_frame_size := some v } rest := by
        simp [Settings.loadLoop, heq, hcond]
      rw [hstep]
      exact ih ⟨p, hp', hbad⟩
  | case8 s b0 b1 b2 b3 b4 b5 rest v heq hcond =>
    intro
    simp [Settings.loadLoop, heq, hcond]
  | case9 s b0 b1 b2 b3 b4 b5 rest v heq ih =>
    rintro ⟨p, hp, hbad⟩
    rcases List.mem_cons.mp hp with rfl | hp'
    · rw [Setting.from_id_eq _ _ _ heq] at hbad
      simp [badField, Setting.encodeKindVal] at hbad
    · have hstep : Settings.loadLoop s (b0 :: b1 :: b2 :: b3 :: b4 :: b5 :: rest)
          = Settings.loadLoop { s with max_header_list_size := some v } rest := by
        simp [Settings.loadLoop, heq]
      rw [hstep]
      exact ih ⟨p, hp', hbad⟩
  | case10 s b0 b1 b2 b3 b4 b5 rest v heq hcond ih =>
    rintro ⟨p, hp, hbad⟩
    rcases List.mem_cons.mp hp with rfl | hp'
    · rw [Setting.from_id_eq _ _ _ heq] at hbad
      rcases hcond with rfl | rfl <;>
        simp [badField, Setting.encodeKindVal] at hbad
    · have hstep : Settings.loadLoop s (b0 :: b1 :: b2 :: b3 :: b4 :: b5 :: rest)
          = Settings.loadLoop { s with enable_connect_protocol := some v } rest := by
        rcases hcond with rfl | rfl <;> simp [Settings.loadLoop, heq]
      rw [hstep]
      exact ih ⟨p, hp', hbad⟩
  | case11 s b0 b1 b2 b3 b4 b5 rest v heq hcond =>
    intro
    simp [Settings.loadLoop, heq, hcond]
  | case12 s b0 b1 b2 b3 b4 b5 rest v heq ih =>
    rintro ⟨p, hp, hbad⟩
    rcases List.mem_cons.mp hp with rfl | hp'
    · rw [Setting.from_id_eq _ _ _ heq] at hbad
      simp [badField, Setting.encodeKindVal] at hbad
    · have hstep : Settings.loadLoop s (b0 :: b1 :: b2 :: b3 :: b4 :: b5 :: rest)
          = Settings.loadLoop { s with no_rfc7540_priorities := some v } rest := by
        simp [Settings.loadLoop, heq]
      rw [hstep]
      exact ih ⟨p, hp', hbad⟩
  | case13 s b0 b1 b2 b3 b4 b5 rest heq ih =>
    rintro ⟨p, hp, hbad⟩
    rcases List.mem_cons.mp hp with rfl | hp'
    · rw [Setting.from_id_none_not_bad _ _ heq] at hbad
      exact absurd hbad (by simp)
    · have hstep : Settings.loadLoop s (b0 :: b1 :: b2 :: b3 :: b4 :: b5 :: rest)
          = Settings.loadLoop s rest := by
        simp [Settings.loadLoop, heq]
      rw [hstep]
      exact ih ⟨p, hp', hbad⟩
  | case14 t s hshape =>
    rintro ⟨p, hp, -⟩
    rw [(Settings.loadLoop_short s t hshape).2] at hp
    exact absurd hp (List.not_mem_nil p)

theorem Settings.load_eq (head : Head) (payload : List Nat) :
    Settings.load head payload =
      if head.stream_id ≠ 0 then .error .InvalidStreamId
      else if (SettingsFlags.load head.flag).is_ack then
        if payload ≠ [] then .error .InvalidPayloadLength
        else .ok Settings.ack
      else if payload.length % 6 ≠ 0 then .error .InvalidPayloadAckSettings
      else Settings.loadLoop Settings.default payload := rfl

theorem Settings.load_result (head : Head) (payload : List Nat) :
    (head.stream_id ≠ 0 ∧
      Settings.load head payload = .error .InvalidStreamId)
    ∨ (head.stream_id = 0 ∧ (SettingsFlags.load head.flag).is_ack = true ∧
        payload ≠ [] ∧
        Settings.load head payload = .error .InvalidPayloadLength)
    ∨ (head.stream_id = 0 ∧ (SettingsFlags.load head.flag).is_ack = true ∧
        payload = [] ∧ Settings.load head payload = .ok Settings.ack)
    ∨ (head.stream_id = 0 ∧ (SettingsFlags.load head.flag).is_ack = false ∧
        payload.length % 6 ≠ 0 ∧
        Settings.load head payload = .error .InvalidPayloadAckSettings)
    ∨ (head.stream_id = 0 ∧ (SettingsFlags.load head.flag).is_ack = false ∧
        payload.length % 6 = 0 ∧
        (∃ p ∈ settingsFields payload, badField p = true) ∧
        Settings.load head payload = .error .InvalidSettingValue)
    ∨ (head.stream_id = 0 ∧ (SettingsFlags.load head.flag).is_ack = false ∧
        payload.length % 6 = 0 ∧
        (∀ p ∈ settingsFields payload, badField p = false) ∧
        ∃ s', Settings.load head payload = .ok s') := by
  by_cases hs0 : head.stream_id = 0
  · by_cases hack : (SettingsFlags.load head.flag).is_ack = true
    · by_cases hpe : payload = []
      · exact Or.inr (Or.inr (Or.inl ⟨hs0, hack, hpe,
          by rw [Settings.load_eq]; simp [hs0, hack, hpe]⟩))
      · exact Or.inr (Or.inl ⟨hs0, hack, hpe,
          by rw [Settings.load_eq]; simp [hs0, hack, hpe]⟩)
    · have hackf : (SettingsFlags.load head.flag).is_ack = false := by
        simpa using hack
      by_cases hlen : payload.length % 6 = 0
      · by_cases hex : ∃ p ∈ settingsFields payload, badField p = true
        · refine Or.inr (Or.inr (Or.inr (Or.inr (Or.inl
            ⟨hs0, hackf, hlen, hex, ?_⟩))))
          rw [Settings.load_eq]
          simp only [hs0, hackf, hlen]
          simp only [ne_eq, not_true_eq_false, if_false,
            Bool.false_eq_true, not_false_eq_true, if_true]
          exact Settings.loadLoop_error_of_bad _ _ hex
        · have hall : ∀ p ∈ settingsFields payload, badField p = false := by
            intro p hp
            rcases hbp : badField p with _ | _
            · rfl
            · exact absurd ⟨p, hp, hbp⟩ hex
          obtain ⟨s', hs'⟩ :=
            Settings.loadLoop_ok_of_good Settings.default payload hall
          refine Or.inr (Or.inr (Or.inr (Or.inr (Or.inr
            ⟨hs0, hackf, hlen, hall, s', ?_⟩))))
          rw [Settings.load_eq]
          simp only [hs0, hackf, hlen]
          simp only [ne_eq, not_true_eq_false, if_false,
            Bool.false_eq_true, not_false_eq_true, if_true]
          exact hs'
      · exact Or.inr (Or.inr (Or.inr (Or.inl ⟨hs0, hackf, hlen,
          by rw [Settings.load_eq]; simp [hs0, hackf, hlen]⟩)))
  · exact Or.inl ⟨hs0, by rw [Settings.load_eq]; simp [hs0]⟩

/-- C3: `Settings::load` returns `InvalidStreamId` iff the head's stream
id is nonzero; otherwise with the ACK flag it returns
`InvalidPayloadLength` iff the payload is non-empty and the ack-only value
otherwise; otherwise `InvalidPayloadAckSettings` iff the payload length is
not a multiple of 6; otherwise `InvalidSettingValue` iff some parsed
6-byte field has an out-of-range value (`EnablePush`/`EnableConnectProtocol`
not in {0,1}, `InitialWindowSize` above 2³¹−1, `MaxFrameSize` outside
[16384, 2²⁴−1]); otherwise it succeeds, and fields with unknown ids are
ignored.  (Total function: no panic.) -/
theorem settings_load_contract (head : Head) (payload : List Nat)
    (_hkind : head.kind = Kind.Settings) :
    (Settings.load head payload = .error .InvalidStreamId ↔
      head.stream_id ≠ 0)
    ∧ (Settings.load head payload = .error .InvalidPayloadLength ↔
        head.stream_id = 0 ∧ (SettingsFlags.load head.flag).is_ack = true ∧
          payload ≠ [])
    ∧ (head.stream_id = 0 → (SettingsFlags.load head.flag).is_ack = true →
        payload = [] → Settings.load head payload = .ok Settings.ack)
    ∧ (Settings.load head payload = .error .InvalidPayloadAckSettings ↔
        head.stream_id = 0 ∧ (SettingsFlags.load head.flag).is_ack = false ∧
          payload.length % 6 ≠ 0)
    ∧ (Settings.load head payload = .error .InvalidSettingValue ↔
        head.stream_id = 0 ∧ (SettingsFlags.load head.flag).is_ack = false ∧
          payload.length % 6 = 0 ∧
          ∃ p ∈ settingsFields payload, badField p = true)
    ∧ (head.stream_id = 0 → (SettingsFlags.load head.flag).is_ack = false →
        payload.length % 6 = 0 →
        (∀ p ∈ settingsFields payload, badField p = false) →
        ∃ s', Settings.load head payload = .ok s')
    ∧ (∀ (s : Settings) (b0 b1 b2 b3 b4 b5 : Nat) (rest : List Nat),
        Setting.from_id (unpackU16 b0 b1) (unpackU32 b2 b3 b4 b5) = none →
        Settings.loadLoop s (b0 :: b1 :: b2 :: b3 :: b4 :: b5 :: rest)
          = Settings.loadLoop s rest) := by
  have H := Settings.load_result head payload
  refine ⟨?_, ?_, ?_, ?_, ?_, ?_,
    fun s b0 b1 b2 b3 b4 b5 rest hnone => by
      simp [Settings.loadLoop, hnone]⟩
  · constructor
    · intro h
      rcases H with ⟨h1, -⟩ | ⟨-, -, -, h4⟩ | ⟨-, -, -, h4⟩ |
        ⟨-, -, -, h4⟩ | ⟨-, -, -, -, h4⟩ | ⟨-, -, -, -, s', h4⟩
      · exact h1
      all_goals rw [h4] at h; simp at h
    · intro hne
      rcases H with ⟨-, h2⟩ | ⟨h1, -⟩ | ⟨h1, -⟩ | ⟨h1, -⟩ | ⟨h1, -⟩ |
        ⟨h1, -⟩
      · exact h2
      all_goals exact absurd h1 hne
  · constructor
    · intro h
      rcases H with ⟨-, h4⟩ | ⟨h1, h2, h3, -⟩ | ⟨-, -, -, h4⟩ |
        ⟨-, -, -, h4⟩ | ⟨-, -, -, -, h4⟩ | ⟨-, -, -, -, s', h4⟩
      · rw [h4] at h; simp at h
      · exact ⟨h1, h2, h3⟩
      all_goals rw [h4] at h; simp at h
    · rintro ⟨hs0, hack, hne⟩
      rcases H with ⟨h1, -⟩ | ⟨-, -, -, h4⟩ | ⟨-, -, h3, -⟩ |
        ⟨-, h2, -, -⟩ | ⟨-, h2, -, -, -⟩ | ⟨-, h2, -, -, -⟩
      · exact absurd hs0 h1
      · exact h4
      · exact absurd h3 hne
      all_goals rw [hack] at h2; simp at h2
  · intro hs0 hack hpe
    rcases H with ⟨h1, -⟩ | ⟨-, -, h3, -⟩ | ⟨-, -, -, h4⟩ |
      ⟨-, h2, -, -⟩ | ⟨-, h2, -, -, -⟩ | ⟨-, h2, -, -, -⟩
    · exact absurd hs0 h1
    · exact absurd hpe h3
    · exact h4
    all_goals rw [hack] at h2; simp at h2
  · constructor
    · intro h
      rcases H with ⟨-, h4⟩ | ⟨-, -, -, h4⟩ | ⟨-, -, -, h4⟩ |
        ⟨h1, h2, h3, -⟩ | ⟨-, -, -, -, h4⟩ | ⟨-, -, -, -, s', h4⟩
      · rw [h4] at h; simp at h
      · rw [h4] at h; simp at h
      · rw [h4] at h; simp at h
      · exact ⟨h1, h2, h3⟩
      all_goals rw [h4] at h; simp at h
    · rintro ⟨hs0, hackf, hlen⟩
      rcases H with ⟨h1, -⟩ | ⟨-, h2, -, -⟩ | ⟨-, h2, -, -⟩ |
        ⟨-, -, -, h4⟩ | ⟨-, -, h3, -, -⟩ | ⟨-, -, h3, -, -⟩
      · exact absurd hs0 h1
      · rw [hackf] at h2; simp at h2
      · rw [hackf] at h2; simp at h2
      · exact h4
      all_goals exact absurd h3 hlen
  · constructor
    · intro h
      rcases H with ⟨-, h4⟩ | ⟨-, -, -, h4⟩ | ⟨-, -, -, h4⟩ |
        ⟨-, -, -, h4⟩ | ⟨h1, h2, h3, hex, -⟩ | ⟨-, -, -, hall, s', h4⟩
      · rw [h4] at h; simp at h
      · rw [h4] at h; simp at h
      · rw [h4] at h; simp at h
      · rw [h4] at h; simp at h
      · exact ⟨h1, h2, h3, hex⟩
      · rw [h4] at h; simp at h
    · rintro ⟨hs0, hackf, hlen, hex⟩
      rcases H with ⟨h1, -⟩ | ⟨-, h2, -, -⟩ | ⟨-, h2, -, -⟩ |
        ⟨-, -, h3, -⟩ | ⟨-, -, -, -, h5⟩ | ⟨-, -, -, hall, -, -⟩
      · exact absurd hs0 h1
      · rw [hackf] at h2; simp at h2
      · rw [hackf] at h2; simp at h2
      · exact absurd hlen h3
      · exact h5
      · rcases hex with ⟨p, hp, hb⟩
        rw [hall p hp] at hb
        simp at hb
  · intro hs0 hackf hlen hall
    rcases H with ⟨h1, -⟩ | ⟨-, h2, -, -⟩ | ⟨-, h2, -, -⟩ |
      ⟨-, -, h3, -⟩ | ⟨-, -, -, hex, -⟩ | ⟨-, -, -, -, s', h5⟩
    · exact absurd hs0 h1
    · rw [hackf] at h2; simp at h2
    · rw [hackf] at h2; simp at h2
    · exact absurd hlen h3
    · rcases hex with ⟨p, hp, hb⟩
      rw [hall p hp] at hb
      simp at hb
    · exact ⟨s', h5⟩

/-- Witness for C3: on head {kind Settings, flags 0, stream 0} a payload
declaring EnablePush = 5 is rejected with `InvalidSettingValue`, and a
nonzero stream id is rejected with `InvalidStreamId`. -/
theorem settings_load_contract_witness :
    Settings.load ⟨Kind.Settings, 0, 0⟩ [0, 2, 0, 0, 0, 5]
      = .error .InvalidSettingValue ∧
    Settings.load ⟨Kind.Settings, 0, 7⟩ []
      = .error .InvalidStreamId := by
  constructor
  · exact (settings_load_contract ⟨Kind.Settings, 0, 0⟩ [0, 2, 0, 0, 0, 5]
      rfl).2.2.2.2.1.mpr (by decide)
  · exact (settings_load_contract ⟨Kind.Settings, 0, 7⟩ []
      rfl).1.mpr (by decide)

/-! ### Settings encode/decode round trip -/

theorem unpackU16_putU16 (a : Nat) (h : a < 2 ^ 16) :
    unpackU16 (a / 2 ^ 8 % 2 ^ 8) (a % 2 ^ 8) = a := by
  unfold unpackU16
  have h8 : (2 : Nat) ^ 8 = 256 := by norm_num
  have h16 : (2 : Nat) ^ 16 = 65536 := by norm_num
  rw [h8]
  rw [h16] at h
  omega

theorem unpackU32_putU32 (v : Nat) (h : v < 2 ^ 32) :
    unpackU32 (v / 2 ^ 24 % 2 ^ 8) (v / 2 ^ 16 % 2 ^ 8) (v / 2 ^ 8 % 2 ^ 8)
      (v % 2 ^ 8) = v := by
  unfold unpackU32
  have h8 : (2 : Nat) ^ 8 = 256 := by norm_num
  have h16 : (2 : Nat) ^ 16 = 65536 := by norm_num
  have h24 : (2 : Nat) ^ 24 = 16777216 := by norm_num
  have h32 : (2 : Nat) ^ 32 = 4294967296 := by norm_num
  rw [h8, h16, h24]
  rw [h32] at h
  omega

theorem Setting.encode_eq (st : Setting) :
    Setting.encode st =
      [st.encodeKindVal.1 / 2 ^ 8 % 2 ^ 8, st.encodeKindVal.1 % 2 ^ 8,
       st.encodeKindVal.2 / 2 ^ 24 % 2 ^ 8, st.encodeKindVal.2 / 2 ^ 16 % 2 ^ 8,
       st.encodeKindVal.2 / 2 ^ 8 % 2 ^ 8, st.encodeKindVal.2 % 2 ^ 8] := rfl

theorem SettingId.toSetting_val (id : SettingId) (v : Nat) :
    (id.toSetting v).encodeKindVal.2 = v := by
  cases id <;> rfl

theorem Setting.kind_lt (st : Setting) : st.encodeKindVal.1 < 2 ^ 16 := by
  cases st <;> norm_num [Setting.encodeKindVal]

theorem Setting.from_id_toSetting (id : SettingId) (v : Nat) :
    Setting.from_id (id.toSetting v).encodeKindVal.1
      (id.toSetting v).encodeKindVal.2 = some (id.toSetting v) := by
  cases id <;> rfl

theorem settingsFields_encode_cons (st : Setting) (rest : List Nat)
    (hval : st.encodeKindVal.2 < 2 ^ 32) :
    settingsFields (Setting.encode st ++ rest)
      = st.encodeKindVal :: settingsFields rest := by
  rw [Setting.encode_eq]
  show (unpackU16 (st.encodeKindVal.1 / 2 ^ 8 % 2 ^ 8)
      (st.encodeKindVal.1 % 2 ^ 8),
    unpackU32 (st.encodeKindVal.2 / 2 ^ 24 % 2 ^ 8)
      (st.encodeKindVal.2 / 2 ^ 16 % 2 ^ 8)
      (st.encodeKindVal.2 / 2 ^ 8 % 2 ^ 8)
      (st.encodeKindVal.2 % 2 ^ 8)) :: settingsFields rest = _
  rw [unpackU16_putU16 _ st.kind_lt, unpackU32_putU32 _ hval]

theorem Settings.setField_map (s : Settings) (id0 : SettingId) (v : Nat)
    (id : SettingId) :
    (s.setField id0 v).settingsMap id =
      if id = id0 then some v else s.settingsMap id := by
  cases id0 <;> cases id <;>
    simp [Settings.setField, Settings.settingsMap]

theorem Settings.default_map (id : SettingId) :
    Settings.default.settingsMap id = none := by
  cases id <;> rfl

theorem Settings.loadLoop_step (s : Settings) (b0 b1 b2 b3 b4 b5 : Nat)
    (rest : List Nat) (id : SettingId) (v : Nat)
    (hfid : Setting.from_id (unpackU16 b0 b1) (unpackU32 b2 b3 b4 b5)
      = some (id.toSetting v))
    (hval : validSettingValue id v = true) :
    Settings.loadLoop s (b0 :: b1 :: b2 :: b3 :: b4 :: b5 :: rest)
      = Settings.loadLoop (s.setField id v) rest := by
  cases id with
  | HeaderTableSize =>
    simp only [SettingId.toSetting] at hfid
    simp [Settings.loadLoop, hfid, Settings.setField]
  | EnablePush =>
    simp only [SettingId.toSetting] at hfid
    rw [validSettingValue] at hval
    simp only [Bool.and_eq_true, Bool.or_eq_true, beq_iff_eq] at hval
    rcases hval.2 with rfl | rfl <;>
      simp [Settings.loadLoop, hfid, Settings.setField]
  | MaxConcurrentStreams =>
    simp only [SettingId.toSetting] at hfid
    simp [Settings.loadLoop, hfid, Settings.setField]
  | InitialWindowSize =>
    simp only [SettingId.toSetting] at hfid
    rw [validSettingValue] at hval
    simp only [Bool.and_eq_true, decide_eq_true_eq] at hval
    have hcond : ¬ v > MAX_INITIAL_WINDOW_SIZE := by
      simpa using hval.2
    simp [Settings.loadLoop, hfid, Settings.setField, hcond]
  | MaxFrameSize =>
    simp only [SettingId.toSetting] at hfid
    rw [validSettingValue] at hval
    simp only [Bool.and_eq_true, decide_eq_true_eq] at hval
    have hcond : DEFAULT_MAX_FRAME_SIZE ≤ v ∧ v ≤ MAX_MAX_FRAME_SIZE :=
      hval.2
    simp [Settings.loadLoop, hfid, Settings.setField, hcond]
  | MaxHeaderListSize =>
    simp only [SettingId.toSetting] at hfid
    simp [Settings.loadLoop, hfid, Settings.setField]
  | EnableConnectProtocol =>
    simp only [SettingId.toSetting] at hfid
    rw [validSettingValue] at hval
    simp only [Bool.and_eq_true, Bool.or_eq_true, beq_iff_eq] at hval
    rcases hval.2 with rfl | rfl <;>
      simp [Settings.loadLoop, hfid, Settings.setField]
  | NoRfc7540Priorities =>
    simp only [SettingId.toSetting] at hfid
    simp [Settings.loadLoop, hfid, Settings.setField]

theorem Settings.for_each_eq (s : Settings) :
    s.for_each = s.settings_order.ids.flatMap fun id =>
      match s.settingsMap id with
      | some v => [id.toSetting v]
      | none => [] := by
  unfold Settings.for_each
  congr 1
  funext id
  cases id <;> rfl

theorem Settings.encodePayload_eq (s : Settings) :
    s.encodePayload = s.encodeIds s.settings_order.ids := by
  rw [Settings.encodePayload, Settings.for_each_eq]
  generalize s.settings_order.ids = ids
  induction ids with
  | nil => rfl
  | cons id ids ih =>
    rw [List.flatMap_cons, List.flatMap_append, ih]
    rcases hm : s.settingsMap id with _ | v <;>
      simp [Settings.encodeIds, hm]

theorem Settings.encodeIds_len (s : Settings) (ids : List SettingId) :
    (s.encodeIds ids).length % 6 = 0 := by
  induction ids with
  | nil => rfl
  | cons id ids ih =>
    rcases hm : s.settingsMap id with _ | v
    · simpa [Settings.encodeIds, hm] using ih
    · have hlen : (Setting.encode (id.toSetting v)).length = 6 := by
        rw [Setting.encode_eq]
        rfl
      simp only [Settings.encodeIds, hm, List.length_append, hlen]
      omega

theorem validSettingValue_lt (id : SettingId) (v : Nat)
    (h : validSettingValue id v = true) : v < 2 ^ 32 := by
  cases id <;> simp [validSettingValue] at h <;> omega

theorem Settings.decode_fold (s : Settings)
    (hvalid : ∀ id v, s.settingsMap id = some v →
      validSettingValue id v = true) :
    ∀ (ids : List SettingId) (s₀ : Settings),
    ∃ s', Settings.loadLoop s₀ (s.encodeIds ids) = .ok s' ∧
      ∀ id, s'.settingsMap id =
        if id ∈ ids ∧ (s.settingsMap id).isSome then s.settingsMap id
        else s₀.settingsMap id := by
  intro ids
  induction ids with
  | nil =>
    intro s₀
    exact ⟨s₀, rfl, fun id => by simp⟩
  | cons id0 ids ih =>
    intro s₀
    rcases hm : s.settingsMap id0 with _ | v
    · have henc : s.encodeIds (id0 :: ids) = s.encodeIds ids := by
        simp [Settings.encodeIds, hm]
      rcases ih s₀ with ⟨s', h1, h2⟩
      refine ⟨s', by rw [henc]; exact h1, ?_⟩
      intro id
      rw [h2 id]
      by_cases hid : id = id0
      · subst hid
        simp [hm]
      · simp [List.mem_cons, hid]
    · have hval := hvalid id0 v hm
      have hv32 : v < 2 ^ 32 := validSettingValue_lt id0 v hval
      have henc : s.encodeIds (id0 :: ids)
          = Setting.encode (id0.toSetting v) ++ s.encodeIds ids := by
        simp [Settings.encodeIds, hm]
      have hstep : Settings.loadLoop s₀
          (Setting.encode (id0.toSetting v) ++ s.encodeIds ids)
          = Settings.loadLoop (s₀.setField id0 v) (s.encodeIds ids) := by
        rw [Setting.encode_eq]
        refine Settings.loadLoop_step _ _ _ _ _ _ _ _ _ _ ?_ hval
        rw [unpackU16_putU16 _ (id0.toSetting v).kind_lt,
          unpackU32_putU32 _ (by rw [SettingId.toSetting_val]; exact hv32)]
        exact Setting.from_id_toSetting id0 v
      rcases ih (s₀.setField id0 v) with ⟨s', h1, h2⟩
      refine ⟨s', by rw [henc, hstep]; exact h1, ?_⟩
      intro id
      rw [h2 id, Settings.setField_map]
      by_cases hid : id = id0
      · subst hid
        by_cases hin : id ∈ ids
        · simp [hin, hm]
        · simp [hin, hm]
      · simp [List.mem_cons, hid]

/-- C2 (amended): for every `Settings` whose flags are not ACK, whose
present values are within the decoder-accepted u32 ranges, and whose
configured order contains every id with a present value, encoding and
then decoding yields a `Settings` with the same id→value mapping (the
configured order itself is not part of the decoded value's identity). -/
theorem settings_encode_decode_roundtrip (s : Settings)
    (hack : s.is_ack = false)
    (hvalid : ∀ id v, s.settingsMap id = some v →
      validSettingValue id v = true)
    (hcover : ∀ id : SettingId, (s.settingsMap id).isSome = true →
      id ∈ s.settings_order.ids) :
    ∃ s', Settings.load s.encodeFrameHead s.encodePayload = .ok s' ∧
      ∀ id, s'.settingsMap id = s.settingsMap id := by
  have hload : Settings.load s.encodeFrameHead s.encodePayload
      = Settings.loadLoop Settings.default s.encodePayload := by
    rw [Settings.load_eq]
    have hackl : (SettingsFlags.load s.encodeFrameHead.flag).is_ack
        = false := by
      show (s.flags.bits &&& ALL &&& ACK == ACK) = false
      rw [Nat.and_assoc]
      exact hack
    have hlen : s.encodePayload.length % 6 = 0 := by
      rw [Settings.encodePayload_eq]
      exact Settings.encodeIds_len s _
    have hsid : s.encodeFrameHead.stream_id = 0 := rfl
    simp [hsid, hackl, hlen]
  rw [hload, Settings.encodePayload_eq]
  obtain ⟨s', h1, h2⟩ :=
    Settings.decode_fold s hvalid s.settings_order.ids Settings.default
  refine ⟨s', h1, ?_⟩
  intro id
  rw [h2 id]
  by_cases hsome : (s.settingsMap id).isSome = true
  · simp [hcover id hsome, hsome]
  · have hnone : s.settingsMap id = none :=
      Option.not_isSome_iff_eq_none.mp (by simpa using hsome)
    simp [hsome, hnone, Settings.default_map]

/-- Witness for C2 (amended): a concrete default-ordered `Settings` with
`header_table_size = 65536` round-trips with an unchanged mapping. -/
theorem settings_encode_decode_roundtrip_witness :
    ∃ s', Settings.load
        ({ Settings.default with header_table_size := some 65536 }
          : Settings).encodeFrameHead
        ({ Settings.default with header_table_size := some 65536 }
          : Settings).encodePayload = .ok s' ∧
      ∀ id, s'.settingsMap id =
        ({ Settings.default with header_table_size := some 65536 }
          : Settings).settingsMap id := by
  apply settings_encode_decode_roundtrip
  · rfl
  · intro id v h
    cases id <;> simp [Settings.settingsMap, Settings.default] at h
    subst h
    decide
  · intro id h
    exact SettingId.mem_DEFAULT_IDS id

/-- Counterexample to C2 as stated: (i) a `Settings` whose configured
order omits the id of a present value decodes back with a different
mapping; (ii) an ACK-flagged `Settings` carrying a value fails to decode
with `InvalidPayloadLength`; (iii) a `Settings` whose window size exceeds
2³¹−1 fails to decode with `InvalidSettingValue`. -/
theorem settings_roundtrip_cex :
    (Settings.load cexOrderOmits.encodeFrameHead cexOrderOmits.encodePayload
        = .ok Settings.default
      ∧ Settings.default.settingsMap .HeaderTableSize
          ≠ cexOrderOmits.settingsMap .HeaderTableSize)
    ∧ Settings.load cexAckWithValue.encodeFrameHead
        cexAckWithValue.encodePayload = .error .InvalidPayloadLength
    ∧ Settings.load cexWindowTooLarge.encodeFrameHead
        cexWindowTooLarge.encodePayload = .error .InvalidSettingValue := by
  refine ⟨⟨rfl, by decide⟩, rfl, rfl⟩

/-! ### Profile-identifier resolution -/

set_option maxHeartbeats 4000000 in
theorem Emulation.from_str_error (s : String) (hs : s ∉ SUPPORTED_STRS)
    (hr : s ≠ "random") (i : Nat) :
    Emulation.from_str i s = .error ("Invalid emulation: " ++ s) := by
  unfold Emulation.from_str
  split
  all_goals first
    | rfl
    | (exact absurd (by decide) hs)
    | (exact absurd rfl hr)

theorem parse_fallback_spec (i : Nat) (st : WarnState) (s : String) :
    (isOkE (Emulation.from_str i s) = false →
      (parse_impersonate_with_fallback i st s).1 ∈ EMULATION_LIST)
    ∧ (parse_impersonate_with_fallback i st s).2.1.warned
        = (if isOkE (Emulation.from_str i s) = false ∧ s ∉ st.warned
           then st.warned ++ [s] else st.warned)
    ∧ (parse_impersonate_with_fallback i st s).2.2
        = (if isOkE (Emulation.from_str i s) = false ∧ s ∉ st.warned
           then [s] else []) := by
  rcases hfs : Emulation.from_str i s with msg | e
  · have hok : isOkE (Emulation.from_str i s) = false := by rw [hfs]; rfl
    by_cases hw : s ∈ st.warned
    · have hunf : parse_impersonate_with_fallback i st s
          = (get_random_element i EMULATION_LIST (by decide), st, []) := by
        unfold parse_impersonate_with_fallback
        rw [hfs]
        simp [hw]
      exact ⟨fun _ => by rw [hunf]; exact List.get_mem _ _ _,
        by rw [hunf]; simp [isOkE, hw],
        by rw [hunf]; simp [isOkE, hw]⟩
    · have hunf : parse_impersonate_with_fallback i st s
          = (get_random_element i EMULATION_LIST (by decide),
             ⟨st.warned ++ [s]⟩, [s]) := by
        unfold parse_impersonate_with_fallback
        rw [hfs]
        simp [hw]
      exact ⟨fun _ => by rw [hunf]; exact List.get_mem _ _ _,
        by rw [hunf]; simp [isOkE, hw],
        by rw [hunf]; simp [isOkE, hw]⟩
  · have hunf : parse_impersonate_with_fallback i st s = (e, st, []) := by
      unfold parse_impersonate_with_fallback
      rw [hfs]
    refine ⟨fun hcontra => ?_, by rw [hunf]; simp [isOkE],
      by rw [hunf]; simp [isOkE]⟩
    simp [isOkE] at hcontra

theorem runFallback_once (s : String)
    (herr : ∀ j, isOkE (Emulation.from_str j s) = false) :
    ∀ (calls : List (Nat × String)) (st : WarnState) (log : List String),
    (s ∈ st.warned →
      ((runFallback st log calls).2).count s = log.count s)
    ∧ (s ∉ st.warned →
      ((runFallback st log calls).2).count s
        = log.count s + (if ∃ c ∈ calls, c.2 = s then 1 else 0)) := by
  intro calls
  induction calls with
  | nil =>
    intro st log
    exact ⟨fun _ => rfl, fun _ => by simp [runFallback]⟩
  | cons c rest ih =>
    obtain ⟨j, str⟩ := c
    intro st log
    have hstep : runFallback st log ((j, str) :: rest)
        = runFallback (parse_impersonate_with_fallback j st str).2.1
            (log ++ (parse_impersonate_with_fallback j st str).2.2) rest :=
      rfl
    obtain ⟨-, hw, hl⟩ := parse_fallback_spec j st str
    constructor
    · intro hmem
      rw [hstep]
      by_cases hwarn : isOkE (Emulation.from_str j str) = false ∧
          str ∉ st.warned
      · have hne : str ≠ s := fun hEq => hwarn.2 (hEq ▸ hmem)
        have hmem' : s ∈ (parse_impersonate_with_fallback j st str).2.1.warned := by
          rw [hw, if_pos hwarn]
          exact List.mem_append.mpr (Or.inl hmem)
        rw [(ih _ _).1 hmem', hl, if_pos hwarn]
        rw [List.count_append,
          List.count_eq_zero.mpr (show s ∉ [str] by simp [Ne.symm hne])]
        omega
      · have hmem' : s ∈ (parse_impersonate_with_fallback j st str).2.1.warned := by
          rw [hw, if_neg hwarn]
          exact hmem
        rw [(ih _ _).1 hmem', hl, if_neg hwarn]
        simp
    · intro hmem
      rw [hstep]
      by_cases hc : str = s
      · subst hc
        have hwarn : isOkE (Emulation.from_str j str) = false ∧
            str ∉ st.warned := ⟨herr j, hmem⟩
        have hmem' : str ∈ (parse_impersonate_with_fallback j st str).2.1.warned := by
          rw [hw, if_pos hwarn]
          exact List.mem_append.mpr (Or.inr (by simp))
        rw [(ih _ _).1 hmem', hl, if_pos hwarn]
        have hex : ∃ c ∈ (j, str) :: rest, c.2 = str :=
          ⟨(j, str), by simp⟩
        rw [if_pos hex]
        simp [List.count_append]
      · by_cases hwarn : isOkE (Emulation.from_str j str) = false ∧
            str ∉ st.warned
        · have hmem' : s ∉ (parse_impersonate_with_fallback j st str).2.1.warned := by
            rw [hw, if_pos hwarn]
            intro hin
            rcases List.mem_append.mp hin with hin | hin
            · exact hmem hin
            · exact hc (List.mem_singleton.mp hin).symm
          rw [(ih _ _).2 hmem', hl, if_pos hwarn]
          have hiff : (∃ c ∈ rest, c.2 = s) ↔
              (∃ c ∈ (j, str) :: rest, c.2 = s) := by
            constructor
            · rintro ⟨c, hcm, hcs⟩
              exact ⟨c, List.mem_cons_of_mem _ hcm, hcs⟩
            · rintro ⟨c, hcm, hcs⟩
              rcases List.mem_cons.mp hcm with rfl | hcm
              · exact absurd hcs hc
              · exact ⟨c, hcm, hcs⟩
          rw [if_congr hiff rfl rfl, List.count_append,
            List.count_eq_zero.mpr (show s ∉ [str] by simp [Ne.symm hc])]
          omega
        · have hmem' : s ∉ (parse_impersonate_with_fallback j st str).2.1.warned := by
            rw [hw, if_neg hwarn]
            exact hmem
          rw [(ih _ _).2 hmem', hl, if_neg hwarn]
          have hiff : (∃ c ∈ rest, c.2 = s) ↔
              (∃ c ∈ (j, str) :: rest, c.2 = s) := by
            constructor
            · rintro ⟨c, hcm, hcs⟩
              exact ⟨c, List.mem_cons_of_mem _ hcm, hcs⟩
            · rintro ⟨c, hcm, hcs⟩
              rcases List.mem_cons.mp hcm with rfl | hcm
              · exact absurd hcs hc
              · exact ⟨c, hcm, hcs⟩
          rw [if_congr hiff rfl rfl]
          simp

/-- C10: an identifier string that is neither a supported browser+version
identifier nor "random" always fails `from_str` with the explicit
`Invalid emulation` error; "random" always resolves to a member of
`EMULATION_LIST`; the fallback policy resolves an unsupported identifier
to a member of the supported list; and over any call sequence, exactly one
warning is logged for the unsupported identifier iff it occurs (once per
unique unsupported identifier per process). -/
theorem emulation_resolution (s : String) (i : Nat)
    (calls : List (Nat × String))
    (hs : s ∉ SUPPORTED_STRS) (hr : s ≠ "random") :
    Emulation.from_str i s = .error ("Invalid emulation: " ++ s)
    ∧ (∃ e, Emulation.from_str i "random" = .ok e ∧ e ∈ EMULATION_LIST)
    ∧ (∀ (j : Nat) (st : WarnState),
        (parse_impersonate_with_fallback j st s).1 ∈ EMULATION_LIST)
    ∧ ((runFallback ⟨[]⟩ [] calls).2).count s
        = (if ∃ c ∈ calls, c.2 = s then 1 else 0) := by
  have herr : ∀ j, isOkE (Emulation.from_str j s) = false := fun j => by
    rw [Emulation.from_str_error s hs hr j]
    rfl
  refine ⟨Emulation.from_str_error s hs hr i,
    ⟨_, rfl, List.get_mem _ _ _⟩, ?_, ?_⟩
  · intro j st
    exact (parse_fallback_spec j st s).1 (herr j)
  · have h := (runFallback_once s herr calls ⟨[]⟩ []).2 (by simp)
    rw [h]
    simp

/-- Witness for C10: "chrome_200" fails with the explicit error, and over
two calls for "chrome_200" plus one for another identifier, exactly one
warning is logged for it. -/
theorem emulation_resolution_witness :
    Emulation.from_str 0 "chrome_200"
      = .error ("Invalid emulation: " ++ "chrome_200")
    ∧ ((runFallback ⟨[]⟩ []
        [(0, "chrome_200"), (1, "chrome_200"), (2, "edge_101")]).2).count
          "chrome_200" = 1 := by
  have h := emulation_resolution "chrome_200" 0
    [(0, "chrome_200"), (1, "chrome_200"), (2, "edge_101")]
    (by decide) (by decide)
  refine ⟨h.1, ?_⟩
  rw [h.2.2.2]
  rw [if_pos ⟨(0, "chrome_200"), by simp⟩]

end Primp
